import Mathlib

/-!
# Verification of the invisible-ui-tambo core against its specification

Shallow embedding of the repository's core modules:

* `src/lib/ui-state-engine.ts`  — reconciliation engine (`UIStateEngine`, `reduce`)
* `src/unnamed/part_004`        — intent memory (`IntentMemoryEngine`)
* `src/unnamed/part_003`        — hybrid data store (`DataStore`)
* `src/lib/predictive-actions.ts` — suggestion engine (`getPredictiveActions`)
* `src/unnamed/part_006`        — orchestrator (`processUserInput`, …)

Modelling conventions:

* JavaScript objects / `Map`s become insertion-ordered association lists
  (`List (String × α)`) with JS semantics: setting an existing key updates the
  value in place (keeping its position), setting a new key appends.
* JavaScript numbers are modelled as `ℚ` (all arithmetic the claims exercise
  is exact on the small integer values involved).
* `Date.now()` becomes an explicit `now : Nat` parameter threaded into every
  operation that reads the clock.
* Callback props installed by `attachHandlers` are modelled by the opaque
  prop value `Value.callback` (functions carry no data the core inspects).
* The random suffix of generated intent ids is dropped (`intent_<now>`), and
  `debug` payloads (write-only diagnostic strings) are omitted: neither is
  ever read by control flow.
-/

/-- A JavaScript runtime value, as far as the core's data flow needs. -/
inductive Value where
  | num (q : ℚ)
  | str (s : String)
  | bool (b : Bool)
  | vnull
  | callback
  | list (xs : List Value)
  | obj (fields : List (String × Value))
  deriving Repr, BEq

/-- Whether `pat` occurs as a contiguous infix of `l`. -/
def listInfixOf [BEq α] (pat : List α) : List α → Bool
  | [] => pat.isEmpty
  | c :: cs => pat.isPrefixOf (c :: cs) || listInfixOf pat cs

/-- JS `String.prototype.includes`: substring test. -/
def jsIncludes (s pat : String) : Bool :=
  listInfixOf pat.data s.data

/-- JS `String.prototype.trim` (the whitespace characters the application's
inputs can contain are covered by `Char.isWhitespace`), implemented over the
character list so that it evaluates inside the kernel. -/
def jsTrim (s : String) : String :=
  String.mk
    (((s.data.dropWhile Char.isWhitespace).reverse.dropWhile Char.isWhitespace).reverse)

/-- JS `String.prototype.toLowerCase`, over the character list so that it
evaluates inside the kernel (ASCII case mapping, which covers every string
the application compares). -/
def jsToLower (s : String) : String :=
  String.mk (s.data.map Char.toLower)

/-- JS `Map.prototype.get` / object property read on an association list. -/
def jsGet (m : List (String × α)) (k : String) : Option α :=
  (m.find? (fun p => p.1 == k)).map (fun p => p.2)

/-- JS `Map.prototype.set`: update in place if the key exists (keeping its
insertion position), otherwise append. -/
def jsSet (m : List (String × α)) (k : String) (v : α) : List (String × α) :=
  match m with
  | [] => [(k, v)]
  | (k', v') :: t => if k' == k then (k, v) :: t else (k', v') :: jsSet t k v

/-- JS `Map.prototype.delete` / `delete obj[k]`. -/
def jsDel (m : List (String × α)) (k : String) : List (String × α) :=
  m.filter (fun p => p.1 != k)

/-- Elements of `l` not yet in `seen`, first occurrences only. -/
def uniqueFirstAux [BEq α] (seen : List α) : List α → List α
  | [] => []
  | x :: xs =>
      if seen.contains x then uniqueFirstAux seen xs
      else x :: uniqueFirstAux (x :: seen) xs

/-- JS `[...new Set(xs)]`: de-duplicate keeping the first occurrence. -/
def uniqueFirst [BEq α] (l : List α) : List α :=
  uniqueFirstAux [] l

/-- Props bag of a component (`Record<string, unknown>`). -/
abbrev Props := List (String × Value)

/-- Lookup of a prop by key (first binding wins, mirroring `jsGet`). -/
def lookupProp (ps : Props) (k : String) : Option Value :=
  jsGet ps k

/-! ## UI State Engine (`src/lib/ui-state-engine.ts`) -/

/-- `UIComponent` from `ui-state-engine.ts`: a single component instance.
`order?: number` is optional, hence `Option ℚ`. -/
structure UIComponent where
  id : String
  type : String
  props : Props
  visible : Bool
  order : Option ℚ
  deriving Repr, BEq

/-- `UIState`: `Record<string, UIComponent>` in insertion order. -/
abbrev UIState := List (String × UIComponent)

/-- `UIAction` from `ui-state-engine.ts`. -/
inductive UIAction where
  | render (component : UIComponent)
  | remove (id : String)
  | update (id : String) (props : Props)
  | show (id : String)
  | hide (id : String)
  | setOrder (id : String) (order : ℚ)
  | batch (actions : List UIAction)
  deriving Repr

/-- `UIStateResult`: new state plus the diff summary. -/
structure UIStateResult where
  state : UIState
  added : List String
  removed : List String
  updated : List String
  visibilityChanged : List String
  deriving Repr

/-- `UIStateEngine`'s mutable fields (listeners are omitted: the notify loop
only forwards the already-computed diff and never influences the state). -/
structure UIStateEngine where
  state : UIState
  nextOrder : ℚ
  version : Nat
  deriving Repr

namespace UIStateEngine

/-- Fresh engine (`new UIStateEngine()`). -/
def init : UIStateEngine := { state := [], nextOrder := 0, version := 0 }

mutual

/-- The pure reducer `UIStateEngine.reduce`.  `this.nextOrder` is threaded
explicitly: the result pairs the `UIStateResult` with the updated counter. -/
def reduce (state : UIState) (nextOrder : ℚ) :
    UIAction → UIStateResult × ℚ
  | .batch actions =>
      -- Process batch actions sequentially
      reduceList state nextOrder actions
  | .render c =>
      match jsGet state c.id with
      | some existing =>
          -- Update existing component: `{ ...existing, ...c, id: existing.id }`.
          -- All required fields of `c` override; the optional `order` only
          -- overrides when present on `c`.
          let merged : UIComponent :=
            { id := existing.id
              type := c.type
              props := c.props
              visible := c.visible
              order := match c.order with | some o => some o | none => existing.order }
          ({ state := jsSet state c.id merged
             added := [], removed := [], updated := [c.id], visibilityChanged := [] },
           nextOrder)
      | none =>
          -- Add new component with auto-generated order if not provided
          let newComponent : UIComponent :=
            { c with order := match c.order with | some o => some o | none => some nextOrder }
          let nextOrder' := match c.order with | some _ => nextOrder | none => nextOrder + 1
          ({ state := jsSet state c.id newComponent
             added := [c.id], removed := [], updated := [], visibilityChanged := [] },
           nextOrder')
  | .remove id =>
      match jsGet state id with
      | some _ =>
          ({ state := jsDel state id
             added := [], removed := [id], updated := [], visibilityChanged := [] },
           nextOrder)
      | none =>
          ({ state := state
             added := [], removed := [], updated := [], visibilityChanged := [] },
           nextOrder)
  | .update id props =>
      match jsGet state id with
      | some existing =>
          -- `{ ...existing, props: { ...existing.props, ...props } }`;
          -- for lookup purposes the JS spread `{...a, ...b}` is `b ++ a`.
          ({ state := jsSet state id { existing with props := props ++ existing.props }
             added := [], removed := [], updated := [id], visibilityChanged := [] },
           nextOrder)
      | none =>
          ({ state := state
             added := [], removed := [], updated := [], visibilityChanged := [] },
           nextOrder)
  | .show id =>
      match jsGet state id with
      | some existing =>
          if existing.visible then
            ({ state := state
               added := [], removed := [], updated := [], visibilityChanged := [] },
             nextOrder)
          else
            ({ state := jsSet state id { existing with visible := true }
               added := [], removed := [], updated := [], visibilityChanged := [id] },
             nextOrder)
      | none =>
          ({ state := state
             added := [], removed := [], updated := [], visibilityChanged := [] },
           nextOrder)
  | .hide id =>
      match jsGet state id with
      | some existing =>
          if existing.visible then
            ({ state := jsSet state id { existing with visible := false }
               added := [], removed := [], updated := [], visibilityChanged := [id] },
             nextOrder)
          else
            ({ state := state
               added := [], removed := [], updated := [], visibilityChanged := [] },
             nextOrder)
      | none =>
          ({ state := state
             added := [], removed := [], updated := [], visibilityChanged := [] },
           nextOrder)
  | .setOrder id order =>
      match jsGet state id with
      | some existing =>
          ({ state := jsSet state id { existing with order := some order }
             added := [], removed := [], updated := [id], visibilityChanged := [] },
           nextOrder)
      | none =>
          ({ state := state
             added := [], removed := [], updated := [], visibilityChanged := [] },
           nextOrder)

/-- Sequential application of the sub-actions of a batch, concatenating the
per-edit diffs. -/
def reduceList (state : UIState) (nextOrder : ℚ) :
    List UIAction → UIStateResult × ℚ
  | [] =>
      ({ state := state
         added := [], removed := [], updated := [], visibilityChanged := [] },
       nextOrder)
  | a :: rest =>
      let (r, n') := reduce state nextOrder a
      let (r', n'') := reduceList r.state n' rest
      ({ state := r'.state
         added := r.added ++ r'.added
         removed := r.removed ++ r'.removed
         updated := r.updated ++ r'.updated
         visibilityChanged := r.visibilityChanged ++ r'.visibilityChanged },
       n'')

end

/-- `dispatch`: apply the reducer, replace the held tree, increment the
version.  (The synchronous listener notification carries no state.) -/
def dispatch (e : UIStateEngine) (a : UIAction) : UIStateResult × UIStateEngine :=
  let r := reduce e.state e.nextOrder a
  (r.1, { state := r.1.state, nextOrder := r.2, version := e.version + 1 })

/-- `reset()`: clear the tree, report every prior id as removed. -/
def reset (e : UIStateEngine) : UIStateResult × UIStateEngine :=
  let removed := e.state.map (fun p => p.1)
  ({ state := [], added := [], removed := removed, updated := [], visibilityChanged := [] },
   { state := [], nextOrder := e.nextOrder, version := e.version + 1 })

/-- `getState()` (a copy in JS; the identity here). -/
def getState (e : UIStateEngine) : UIState := e.state

end UIStateEngine

/-! ## Intent Memory (`src/unnamed/part_004`) -/

/-- A stored user intent (`Intent`). -/
structure Intent where
  id : String
  timestamp : Nat
  input : String
  type : String
  componentIds : List String
  data : Option (List (String × Value))
  deriving Repr

/-- A reference that can be resolved to a component (`ComponentReference`). -/
structure ComponentReference where
  key : String
  componentId : String
  timestamp : Nat
  description : Option String
  deriving Repr, DecidableEq

/-- The arguments of `recordIntent` (`Omit<Intent, "id" | "timestamp">`). -/
structure IntentInput where
  input : String
  type : String
  componentIds : List String
  data : Option (List (String × Value)) := none

/-- `IntentMemoryEngine`'s mutable fields plus its options. -/
structure IntentMemoryEngine where
  intents : List Intent
  references : List (String × ComponentReference)
  currentIntentId : Option String
  maxIntents : Nat
  maxAge : Nat
  deriving Repr

namespace IntentMemoryEngine

/-- `new IntentMemoryEngine(options)`; defaults: 50 intents, one hour. -/
def init (maxIntents : Nat := 50) (maxAge : Nat := 60 * 60 * 1000) :
    IntentMemoryEngine :=
  { intents := [], references := [], currentIntentId := none
    maxIntents := maxIntents, maxAge := maxAge }

/-- `setReference(key, componentId, timestamp?, description?)`.  The caller
passes `now` for the `?? Date.now()` default. -/
def setReference (e : IntentMemoryEngine) (key componentId : String)
    (now : Nat) (timestamp : Option Nat := none)
    (description : Option String := none) : IntentMemoryEngine :=
  { e with
    references := jsSet e.references (jsToLower key)
      { key := jsToLower key
        componentId := componentId
        timestamp := timestamp.getD now
        description := description } }

/-- `cleanup()`: drop expired intents, cap the log, drop expired references. -/
def cleanup (e : IntentMemoryEngine) (now : Nat) : IntentMemoryEngine :=
  let intents := e.intents.filter (fun intent => now - intent.timestamp < e.maxAge)
  let intents :=
    if intents.length > e.maxIntents then
      intents.drop (intents.length - e.maxIntents)
    else intents
  let references := e.references.filter (fun p => !(now - p.2.timestamp > e.maxAge))
  { e with intents := intents, references := references }

/-- `recordIntent`: cleanup, append, rebind `this`, rotate `that`.  The random
suffix of the generated id is dropped (it is never branched on). -/
def recordIntent (e : IntentMemoryEngine) (intent : IntentInput) (now : Nat) :
    Intent × IntentMemoryEngine :=
  let newIntent : Intent :=
    { id := "intent_" ++ toString now
      timestamp := now
      input := intent.input
      type := intent.type
      componentIds := intent.componentIds
      data := intent.data }
  let e := cleanup e now
  let e := { e with intents := e.intents ++ [newIntent], currentIntentId := some newIntent.id }
  let e :=
    match intent.componentIds with
    | cid :: _ => setReference e "this" cid now (some now)
    | [] => e
  let e :=
    -- `const prevIntent = this.intents[this.intents.length - 2]`
    match e.intents.reverse with
    | _ :: prevIntent :: _ =>
        match prevIntent.componentIds with
        | cid :: _ =>
            setReference e "that" cid now (some prevIntent.timestamp)
        | [] => e
    | _ => e
  (newIntent, e)

/-- `resolveReference`: exact key lookup, else a fuzzy scan of the intent log
for an affected id containing the key as a substring. -/
def resolveReference (e : IntentMemoryEngine) (key : String) : Option String :=
  let lowerKey := jsToLower key
  match jsGet e.references lowerKey with
  | some ref => some ref.componentId
  | none =>
      match e.intents.find? (fun intent =>
        intent.componentIds.any (fun id => jsIncludes (jsToLower id) lowerKey)) with
      | some matchingIntent =>
          match matchingIntent.componentIds with
          | cid :: _ => some cid
          | [] => none
      | none => none

/-- `clear()`. -/
def clear (e : IntentMemoryEngine) : IntentMemoryEngine :=
  { e with intents := [], references := [], currentIntentId := none }

end IntentMemoryEngine

/-! ## Hybrid Data Store (`src/unnamed/part_003`) -/

/-- `DataSource`. -/
inductive DataSource where
  | mock
  | user
  | computed
  deriving Repr, DecidableEq

/-- `DataEntry`. -/
structure DataEntry where
  value : Value
  source : DataSource
  timestamp : Nat
  deriving Repr

/-- `MOCK_DATA`.  The two `time.*` entries are computed from the wall clock in
the source; their concrete string values are never branched on, so they are
modelled as fixed constants. -/
def MOCK_DATA : List (String × Value) :=
  [ ("salary.lastMonth", .num 5000)
  , ("salary.currentMonth", .num 5500)
  , ("salary.previousMonth", .num 4800)
  , ("income.baseSalary", .num 4500)
  , ("income.bonuses", .num 500)
  , ("income.overtime", .num 500)
  , ("income.other", .num 0)
  , ("expenses.rent", .num 1500)
  , ("expenses.utilities", .num 200)
  , ("expenses.groceries", .num 400)
  , ("expenses.transport", .num 150)
  , ("expenses.entertainment", .num 200)
  , ("expenses.savings", .num 1000)
  , ("expenses.other", .num 300)
  , ("budget.total", .num 5000)
  , ("budget.remaining", .num 750)
  , ("budget.spent", .num 4250)
  , ("accounts.checking", .num 2500)
  , ("accounts.savings", .num 15000)
  , ("accounts.investments", .num 35000)
  , ("accounts.retirement", .num 25000)
  , ("debt.creditCard", .num 800)
  , ("debt.studentLoan", .num 12000)
  , ("debt.carLoan", .num 8000)
  , ("debt.mortgage", .num 180000)
  , ("goals.emergencyFund", .obj [("target", .num 15000), ("current", .num 12000)])
  , ("goals.vacation", .obj [("target", .num 3000), ("current", .num 800)])
  , ("goals.newCar", .obj [("target", .num 20000), ("current", .num 5000)])
  , ("time.currentMonth", .str "2026-10")
  , ("time.lastMonth", .str "2026-09") ]

/-- `USER_REQUIRED_FIELDS`: keys that must never be mocked. -/
def USER_REQUIRED_FIELDS : List String :=
  [ "salary.lastMonth"
  , "salary.currentMonth"
  , "salary.previousMonth"
  , "user.firstName"
  , "user.lastName"
  , "user.email"
  , "user.phone" ]

/-- The keys of `COMPUTABLE_FIELDS`. -/
def COMPUTABLE_KEYS : List String :=
  [ "salary.change"
  , "salary.changePercent"
  , "salary.trend"
  , "expenses.total"
  , "income.total"
  , "accounts.netWorth" ]

/-- `DataStore`'s mutable fields. -/
structure DataStore where
  data : List (String × DataEntry)
  userProvidedKeys : List String
  deriving Repr

namespace DataStore

/-- Stored-entry read (`this.data.get(key)?.value`), bypassing the computed
table.  The computed-field bodies below see only non-computable keys through
`getNumber`, so using the raw read there is exact. -/
def getRaw (s : DataStore) (k : String) : Option Value :=
  (jsGet s.data k).map (fun e => e.value)

/-- `getNumber` restricted to stored entries (used by computed fields whose
inputs are never themselves computable keys). -/
def getNumberRaw (s : DataStore) (k : String) : Option ℚ :=
  match getRaw s k with
  | some (.num q) => some q
  | _ => none

/-- `COMPUTABLE_FIELDS["salary.change"]`. -/
def salaryChange (s : DataStore) : Option ℚ :=
  match getNumberRaw s "salary.currentMonth", getNumberRaw s "salary.lastMonth" with
  | some current, some last => some (current - last)
  | _, _ => none

/-- `COMPUTABLE_FIELDS["salary.changePercent"]`. -/
def salaryChangePercent (s : DataStore) : Option ℚ :=
  match getNumberRaw s "salary.currentMonth", getNumberRaw s "salary.lastMonth" with
  | some current, some last =>
      if last ≠ 0 then some ((current - last) / last * 100) else none
  | _, _ => none

/-- `COMPUTABLE_FIELDS["salary.trend"]`.  In the source it reads
`salary.change` back through the store; that read is exactly `salaryChange`. -/
def salaryTrend (s : DataStore) : Value :=
  match salaryChange s with
  | some change => .str (if change ≥ 0 then "up" else "down")
  | none => .str "neutral"

/-- `COMPUTABLE_FIELDS["expenses.total"]`. -/
def expensesTotal (s : DataStore) : ℚ :=
  (getNumberRaw s "expenses.rent").getD 0
    + (getNumberRaw s "expenses.utilities").getD 0
    + (getNumberRaw s "expenses.groceries").getD 0
    + (getNumberRaw s "expenses.transport").getD 0
    + (getNumberRaw s "expenses.entertainment").getD 0
    + (getNumberRaw s "expenses.savings").getD 0
    + (getNumberRaw s "expenses.other").getD 0

/-- `COMPUTABLE_FIELDS["income.total"]`. -/
def incomeTotal (s : DataStore) : ℚ :=
  (getNumberRaw s "income.baseSalary").getD 0
    + (getNumberRaw s "income.bonuses").getD 0
    + (getNumberRaw s "income.overtime").getD 0
    + (getNumberRaw s "income.other").getD 0

/-- `COMPUTABLE_FIELDS["accounts.netWorth"]`. -/
def netWorth (s : DataStore) : ℚ :=
  ((getNumberRaw s "accounts.checking").getD 0
      + (getNumberRaw s "accounts.savings").getD 0
      + (getNumberRaw s "accounts.investments").getD 0
      + (getNumberRaw s "accounts.retirement").getD 0)
    - ((getNumberRaw s "debt.creditCard").getD 0
      + (getNumberRaw s "debt.studentLoan").getD 0
      + (getNumberRaw s "debt.carLoan").getD 0
      + (getNumberRaw s "debt.mortgage").getD 0)

/-- `get(key)`: computed-field table first, else stored entry, else null
(`none`). -/
def get (s : DataStore) (k : String) : Option Value :=
  if k == "salary.change" then (salaryChange s).map Value.num
  else if k == "salary.changePercent" then (salaryChangePercent s).map Value.num
  else if k == "salary.trend" then some (salaryTrend s)
  else if k == "expenses.total" then some (.num (expensesTotal s))
  else if k == "income.total" then some (.num (incomeTotal s))
  else if k == "accounts.netWorth" then some (.num (netWorth s))
  else getRaw s k

/-- `getNumber`. -/
def getNumber (s : DataStore) (k : String) : Option ℚ :=
  match get s k with
  | some (.num q) => some q
  | _ => none

/-- `has(key)`. -/
def has (s : DataStore) (k : String) : Bool :=
  (jsGet s.data k).isSome || COMPUTABLE_KEYS.contains k

/-- `exists(key)`. -/
def existsKey (s : DataStore) (k : String) : Bool :=
  s.has k && (s.get k).isSome

/-- `isUserProvided(key)`. -/
def isUserProvided (s : DataStore) (k : String) : Bool :=
  s.userProvidedKeys.contains k

/-- `hasSalaryData()`. -/
def hasSalaryData (s : DataStore) : Bool :=
  (s.getNumber "salary.lastMonth").isSome && (s.getNumber "salary.currentMonth").isSome

/-- `initializeMockData()`: mock entries for every key outside
`USER_REQUIRED_FIELDS`. -/
def initializeMockData (now : Nat) : List (String × DataEntry) :=
  (MOCK_DATA.filter (fun p => !USER_REQUIRED_FIELDS.contains p.1)).map
    (fun p => (p.1, { value := p.2, source := .mock, timestamp := now }))

/-- `new DataStore()`. -/
def init (now : Nat) : DataStore :=
  { data := initializeMockData now, userProvidedKeys := [] }

/-- `set(key, value)`: always user-sourced, always overwrites. -/
def set (s : DataStore) (k : String) (v : Value) (now : Nat) : DataStore :=
  { data := jsSet s.data k { value := v, source := .user, timestamp := now }
    userProvidedKeys :=
      if s.userProvidedKeys.contains k then s.userProvidedKeys
      else s.userProvidedKeys ++ [k] }

/-- `setMany(entries)`. -/
def setMany (s : DataStore) (entries : List (String × Value)) (now : Nat) : DataStore :=
  entries.foldl (fun acc p => acc.set p.1 p.2 now) s

/-- `delete(key)`. -/
def delete (s : DataStore) (k : String) : DataStore :=
  { data := jsDel s.data k
    userProvidedKeys := s.userProvidedKeys.filter (fun k' => k' != k) }

/-- `resetToMock(key)`: succeeds only for mocked keys outside the
never-auto-populate set. -/
def resetToMock (s : DataStore) (k : String) (now : Nat) : Bool × DataStore :=
  match jsGet MOCK_DATA k with
  | some v =>
      if USER_REQUIRED_FIELDS.contains k then (false, s)
      else
        (true,
         { data := jsSet s.data k { value := v, source := .mock, timestamp := now }
           userProvidedKeys := s.userProvidedKeys.filter (fun k' => k' != k) })
  | none => (false, s)

/-- `clear()`: wipe everything, reinitialize defaults. -/
def clear (_s : DataStore) (now : Nat) : DataStore :=
  init now

/-- `getSourceSummary()`. -/
def getSourceSummary (s : DataStore) : Nat × Nat × Nat :=
  ( (s.data.filter (fun p => p.2.source = .mock)).length
  , (s.data.filter (fun p => p.2.source = .user)).length
  , COMPUTABLE_KEYS.length )

end DataStore

/-- `mapFormFieldToDataKey`. -/
def mapFormFieldToDataKey (fieldName : String) : String :=
  if fieldName == "lastMonthSalary" then "salary.lastMonth"
  else if fieldName == "currentMonthSalary" then "salary.currentMonth"
  else if fieldName == "previousMonthSalary" then "salary.previousMonth"
  else if fieldName == "baseSalary" then "income.baseSalary"
  else if fieldName == "monthlyRent" then "expenses.rent"
  else if fieldName == "monthlyUtilities" then "expenses.utilities"
  else if fieldName == "monthlyGroceries" then "expenses.groceries"
  else if fieldName == "checkingAccount" then "accounts.checking"
  else if fieldName == "savingsAccount" then "accounts.savings"
  else if fieldName == "totalExpenses" then "expenses.total"
  else if fieldName == "category" then "expenses.category"
  else fieldName

/-- A decimal-string parser standing in for JS `Number(value)` on the strings
the application's forms produce (`[-]digits[.digits]`); richer JS numeric
syntax (exponents, hex, whitespace) never reaches this code path. -/
def parseDecimal (s : String) : Option ℚ :=
  let core (t : String) : Option ℚ :=
    match t.split (fun c => c == '.') with
    | [whole] => (whole.toNat?).map (fun n => (n : ℚ))
    | [whole, frac] =>
        match whole.toNat?, frac.toNat? with
        | some w, some f =>
            if frac.length = 0 then none
            else some ((w : ℚ) + (f : ℚ) / ((10 : ℚ) ^ frac.length))
        | _, _ => none
    | _ => none
  if s.startsWith "-" then (core (s.drop 1)).map (fun q => -q)
  else core s

/-- `processFormData`: convert numeric strings, then store user-sourced. -/
def processFormData (s : DataStore) (formData : List (String × Value)) (now : Nat) :
    DataStore :=
  formData.foldl
    (fun acc p =>
      let finalValue :=
        match p.2 with
        | .str t =>
            match parseDecimal t with
            | some q => Value.num q
            | none => p.2
        | v => v
      acc.set p.1 finalValue now)
    s

/-- Integer-valued rationals render like JS integers; non-integers only ever
reach debug strings, where the exact rendering is not load-bearing. -/
def jsNumToString (q : ℚ) : String :=
  if q.den = 1 then toString q.num
  else toString q.num ++ "/" ++ toString q.den

/-- `toFixed(1)` on an exact rational (round half away from zero). -/
def qToFixed1 (q : ℚ) : String :=
  let r : ℤ :=
    if q ≥ 0 then ⌊q * 10 + 1 / 2⌋ else -⌊-(q * 10) + 1 / 2⌋
  (if r < 0 then "-" else "")
    ++ toString (r.natAbs / 10) ++ "." ++ toString (r.natAbs % 10)

/-- `${value}` string interpolation of a runtime value (only numbers and
strings are ever interpolated on the paths the claims exercise). -/
def Value.jsString : Value → String
  | .num q => jsNumToString q
  | .str s => s
  | .bool b => if b then "true" else "false"
  | .vnull => "null"
  | .callback => "function"
  | .list _ => "[array]"
  | .obj _ => "[object Object]"

/-- Result record of `getSalaryComparisonData`. -/
structure SalaryComparison where
  lastMonth : Option ℚ
  currentMonth : Option ℚ
  change : Option ℚ
  changePercent : Option ℚ
  trend : String
  hasData : Bool
  deriving Repr

/-- `getSalaryComparisonData()`. -/
def getSalaryComparisonData (s : DataStore) : SalaryComparison :=
  let lastMonth := s.getNumber "salary.lastMonth"
  let currentMonth := s.getNumber "salary.currentMonth"
  { lastMonth := lastMonth
    currentMonth := currentMonth
    change := s.getNumber "salary.change"
    changePercent := s.getNumber "salary.changePercent"
    trend :=
      match s.get "salary.trend" with
      | some (.str t) => t
      | _ => "neutral"
    hasData := lastMonth.isSome && currentMonth.isSome }

/-- One entry of `getSalaryCardsData()`'s result. -/
structure SalaryCard where
  title : String
  value : Value
  trend : String
  deriving Repr

/-- `getSalaryCardsData()`. -/
def getSalaryCardsData (s : DataStore) : List SalaryCard :=
  let data := getSalaryComparisonData s
  if !data.hasData then []
  else
    let last := data.lastMonth.getD 0
    let current := data.currentMonth.getD 0
    let change := data.change.getD 0
    let percent := match data.changePercent with
      | some p => qToFixed1 p
      | none => "0"
    [ { title := "Last Month", value := .num last, trend := "neutral" }
    , { title := "Current Month", value := .num current, trend := "neutral" }
    , { title := "Difference"
        value := .str (if change ≥ 0 then "+$" ++ jsNumToString change
                       else "-$" ++ jsNumToString |change|)
        trend := data.trend }
    , { title := "Change %", value := .str (percent ++ "%"), trend := data.trend } ]

/-- `needsSalaryData()`. -/
def needsSalaryData (s : DataStore) : Bool :=
  !s.hasSalaryData

/-! ## Predictive Actions (`src/lib/predictive-actions.ts`) -/

/-- `PredictiveAction`.  Confidence is held in hundredths (`70` for `0.7`):
the source's float constants `0.4 … 1.0` compare exactly like these
integers, and the integral scale keeps every comparison kernel-evaluable. -/
structure PredictiveAction where
  label : String
  input : String
  confidence : Nat
  reason : Option String := none
  deriving Repr, DecidableEq

/-- `PredictionContext`.  `currentComponents` carries the full components (the
rules read only `id`, `type` and `props`). -/
structure PredictionContext where
  currentComponents : List UIComponent
  lastAction : String
  hasSalaryData : Bool
  hasExpenseData : Bool
  hasChartData : Bool

/-- `salaryComparisonRule`. -/
def salaryComparisonRule (context : PredictionContext) : Option (List PredictiveAction) :=
  let hasSalaryCards := context.currentComponents.any
    (fun c => c.id == "salary-comparison-cards")
  let hasChart := context.currentComponents.any
    (fun c => c.id == "salary-comparison-chart")
  if hasSalaryCards && hasChart then
    some
      [ { label := "Export Report"
          input := "Export my salary comparison as PDF"
          confidence := 70
          reason := some "User just viewed salary data, may want to save it" }
      , { label := "View Expenses"
          input := "Show me my expense breakdown"
          confidence := 60
          reason := some "Natural progression from income to expenses" } ]
  else none

/-- `emptyStateRule`. -/
def emptyStateRule (context : PredictionContext) : Option (List PredictiveAction) :=
  let hasEmptyState := context.currentComponents.any (fun c => c.id == "empty-state")
  if hasEmptyState then
    some
      [ { label := "Compare Salary"
          input := "Show me salary comparison"
          confidence := 80
          reason := some "Most common starting point" } ]
  else none

/-- `afterFormRule`. -/
def afterFormRule (context : PredictionContext) : Option (List PredictiveAction) :=
  let justRemovedForm := jsIncludes context.lastAction "salary-data-form"
  let justAddedCards := jsIncludes context.lastAction "salary-comparison-cards"
  if justRemovedForm && justAddedCards then
    some
      [ { label := "View Details"
          input := "Show more details about my finances"
          confidence := 60
          reason := some "User just entered data, may want deeper analysis" } ]
  else none

/-- Whether one entry of a `cards` prop has a title containing "expense"
(`card?.title?.toLowerCase().includes("expense")`). -/
def cardTitleHasExpense (card : Value) : Bool :=
  match card with
  | .obj fields =>
      match jsGet fields "title" with
      | some (.str t) => jsIncludes (jsToLower t) "expense"
      | _ => false
  | _ => false

/-- `expensesRule`. -/
def expensesRule (context : PredictionContext) : Option (List PredictiveAction) :=
  let isExpenseContext := context.currentComponents.any (fun c =>
    match lookupProp c.props "cards" with
    | some (.list cards) => cards.any cardTitleHasExpense
    | _ => false)
  if isExpenseContext then
    some
      [ { label := "View Income"
          input := "Show me my income breakdown"
          confidence := 70
          reason := some "Natural flow from expenses to income" }
      , { label := "Calculate Savings Rate"
          input := "What is my savings rate?"
          confidence := 60
          reason := some "Common financial metric after viewing expenses" } ]
  else none

/-- `chartRule`. -/
def chartRule (context : PredictionContext) : Option (List PredictiveAction) :=
  let hasChart := context.currentComponents.any (fun c => c.type == "ChartView")
  if hasChart && context.currentComponents.length == 1 then
    some
      [ { label := "Add Summary Cards"
          input := "Show me summary metrics"
          confidence := 60
          reason := some "Charts are often better with summary numbers" } ]
  else none

/-- `MIN_CONFIDENCE` (0.5, in hundredths). -/
def MIN_CONFIDENCE : Nat := 50

/-- `MAX_SUGGESTIONS`. -/
def MAX_SUGGESTIONS : Nat := 3

/-- The concatenation of all rule outputs in registration order
(`PREDICTION_RULES` loop of `getPredictiveActions`). -/
def allRuleSuggestions (context : PredictionContext) : List PredictiveAction :=
  (emptyStateRule context).getD []
    ++ (salaryComparisonRule context).getD []
    ++ (afterFormRule context).getD []
    ++ (expensesRule context).getD []
    ++ (chartRule context).getD []

/-- Stable insertion into a descending-by-confidence list: an element is
placed before the first strictly-smaller confidence, after equals. -/
def insertByConfidence (x : PredictiveAction) :
    List PredictiveAction → List PredictiveAction
  | [] => [x]
  | y :: ys =>
      if x.confidence ≥ y.confidence then x :: y :: ys
      else y :: insertByConfidence x ys

/-- Stable descending sort by confidence, modelling the ES2019+ guarantee
that `Array.prototype.sort((a, b) => b.confidence - a.confidence)` is
stable. -/
def sortByConfidenceDesc : List PredictiveAction → List PredictiveAction
  | [] => []
  | x :: xs => insertByConfidence x (sortByConfidenceDesc xs)

/-- `getPredictiveActions`: run all rules, filter by the confidence
threshold, sort descending (stably), truncate. -/
def getPredictiveActions (context : PredictionContext) : List PredictiveAction :=
  ((allRuleSuggestions context).filter
      (fun s => s.confidence ≥ MIN_CONFIDENCE)
    |> sortByConfidenceDesc).take MAX_SUGGESTIONS

/-- `buildPredictionContext`. -/
def buildPredictionContext (components : List UIComponent)
    (lastActionNotes : String) : PredictionContext :=
  { currentComponents := components
    lastAction := lastActionNotes
    hasSalaryData := components.any (fun c => jsIncludes c.id "salary")
    hasExpenseData := components.any (fun c => jsIncludes c.id "expense")
    hasChartData := components.any (fun c => c.type == "ChartView") }

/-- `shouldShowPredictions`. -/
def shouldShowPredictions (predictions : List PredictiveAction) : Bool :=
  predictions.length > 0 && predictions.any (fun p => p.confidence ≥ 60)

/-! ## Orchestrator (`src/unnamed/part_006`) -/

/-- `HandlerRegistry`: which UI-event callbacks are registered.  The callback
bodies live outside the core; only their presence matters to `attachHandlers`,
which installs them as (opaque) props. -/
structure HandlerRegistry where
  onFormSubmit : Bool := false
  onModalConfirm : Bool := false
  onModalCancel : Bool := false
  onEmptyStateAction : Bool := false
  onPredictAction : Bool := false
  onDismissPredictions : Bool := false
  onToast : Bool := false
  deriving Repr

/-- `OrchestratorResponse` (the `debug` channel is write-only diagnostics and
is omitted). -/
structure OrchestratorResponse where
  render : List UIComponent
  remove : List String
  update : List (String × Props)
  notes : String
  deriving Repr

/-- `OrchestratorAction` (again minus the pass-through `debug` field). -/
structure OrchestratorAction where
  render : List UIComponent
  remove : List String
  update : List (String × Props)
  deriving Repr

/-- The module-level shared state the orchestrator reads and writes: the
singleton UI engine, intent memory, data store and handler registry. -/
structure World where
  ui : UIStateEngine
  memory : IntentMemoryEngine
  store : DataStore
  handlers : HandlerRegistry
  deriving Repr

/-- A freshly-booted module state. -/
def World.init (now : Nat) : World :=
  { ui := .init, memory := .init, store := .init now, handlers := {} }

/-- `attachHandlers`: install the registered callbacks on the prop bag by
component-type convention. -/
def attachHandlers (component : UIComponent) (handlers : HandlerRegistry) :
    UIComponent :=
  let props := component.props
  let props :=
    if component.type == "InputForm" && handlers.onFormSubmit then
      jsSet props "onSubmit" .callback
    else props
  let props :=
    if component.type == "GuardrailModal" then
      let props := if handlers.onModalConfirm then jsSet props "onConfirm" .callback else props
      if handlers.onModalCancel then jsSet props "onCancel" .callback else props
    else props
  let props :=
    if component.type == "EmptyState" && handlers.onEmptyStateAction then
      jsSet props "onAction" .callback
    else props
  let props :=
    if component.type == "PredictiveActionBar" then
      let props := if handlers.onPredictAction then jsSet props "onActionClick" .callback else props
      if handlers.onDismissPredictions then jsSet props "onDismiss" .callback else props
    else props
  let props :=
    if component.type == "ExportActions" && handlers.onToast then
      jsSet props "onExport" .callback
    else props
  { component with props := props }

/-! ### `extractReferences`: the four regex patterns as explicit scanners

`text.match(/pat/g)` is modelled by a left-to-right scan that, at each
position whose preceding character satisfies `\b`, attempts the pattern and,
on success, resumes after the match (non-overlapping, leftmost, greedy) —
exactly the `lastIndex` discipline of a global JS regex. -/

/-- JS `\w`: `[A-Za-z0-9_]`. -/
def isWordChar (c : Char) : Bool :=
  c.isAlphanum || c == '_'

/-- `\b` holds before the scan position given the previous character. -/
def boundaryOk (prev : Option Char) : Bool :=
  match prev with
  | some p => !isWordChar p
  | none => true

/-- Does the list start with a non-word character (or end)?  This is `\b`
after a word-character match. -/
def endBoundary : List Char → Bool
  | [] => true
  | d :: _ => !isWordChar d

/-- Greedy `\w+`: the maximal word-character prefix and the remainder. -/
def spanWordChars (l : List Char) : List Char × List Char :=
  (l.takeWhile isWordChar, l.dropWhile isWordChar)

/-- Attempt `/\bWORD\b/` (for the literal words `this` / `that`) at the
head of `l`. -/
def tryLiteralWord (w : List Char) (prev : Option Char) (l : List Char) :
    Option (List Char × List Char) :=
  if boundaryOk prev && w.isPrefixOf l && endBoundary (l.drop w.length) then
    some (w, l.drop w.length)
  else none

/-- Attempt `/\bthe (above )?(\w+)\b/` at the head of `l` (greedy first:
with the optional `above ` group, then without). -/
def tryThePattern (prev : Option Char) (l : List Char) :
    Option (List Char × List Char) :=
  if boundaryOk prev && "the ".data.isPrefixOf l then
    let l1 := l.drop 4
    let withAbove :=
      if "above ".data.isPrefixOf l1 then
        let (w, r) := spanWordChars (l1.drop 6)
        if w.isEmpty then none else some ("the above ".data ++ w, r)
      else none
    match withAbove with
    | some m => some m
    | none =>
        let (w, r) := spanWordChars l1
        if w.isEmpty then none else some ("the ".data ++ w, r)
  else none

/-- Attempt `/\b(\w+) (above|below)\b/` at the head of `l`. -/
def tryAboveBelowPattern (prev : Option Char) (l : List Char) :
    Option (List Char × List Char) :=
  if boundaryOk prev then
    let (w, r) := spanWordChars l
    if w.isEmpty then none
    else
      match r with
      | ' ' :: r2 =>
          if "above".data.isPrefixOf r2 && endBoundary (r2.drop 5) then
            some (w ++ " above".data, r2.drop 5)
          else if "below".data.isPrefixOf r2 && endBoundary (r2.drop 5) then
            some (w ++ " below".data, r2.drop 5)
          else none
      | _ => none
  else none

/-- Global scan: collect all non-overlapping matches left to right.  `fuel`
starts at the text length; every step either advances one character or
consumes a (non-empty) match. -/
def scanPattern (tryMatch : Option Char → List Char → Option (List Char × List Char)) :
    Nat → Option Char → List Char → List (List Char)
  | 0, _, _ => []
  | _ + 1, _, [] => []
  | fuel + 1, prev, c :: cs =>
      match tryMatch prev (c :: cs) with
      | some (m, rest) => m :: scanPattern tryMatch fuel m.getLast? rest
      | none => scanPattern tryMatch fuel (some c) cs

/-- `extractReferences(text)`: the concatenated matches of the four patterns,
de-duplicated preserving first appearance (`[...new Set(references)]`).
The source matches against the original-case text (its `lowerText` local is
unused), so the scan is case-sensitive. -/
def extractReferences (text : String) : List String :=
  let l := text.data
  let run (t : Option Char → List Char → Option (List Char × List Char)) :=
    (scanPattern t l.length none l).map (fun cs => String.mk cs)
  uniqueFirst
    (run (tryLiteralWord "this".data)
      ++ run (tryLiteralWord "that".data)
      ++ run tryThePattern
      ++ run tryAboveBelowPattern)

/-- `replace(/^(the |above |below )/i, "")` on an already-lowercased ref. -/
def stripLeadingDeterminer (s : String) : String :=
  if s.startsWith "the " then s.drop 4
  else if s.startsWith "above " then s.drop 6
  else if s.startsWith "below " then s.drop 6
  else s

/-- `IntentMemoryEngine.resolveReferencesInText`: clean each extracted
fragment, resolve via the reference table, fall back to the supplied
type→id map, de-duplicate.  The JS truthiness checks (`if (componentId)`)
treat the empty string as a miss. -/
def IntentMemoryEngine.resolveReferencesInText (e : IntentMemoryEngine)
    (text : String) (componentMap : List (String × String)) : List String :=
  let extracted := extractReferences text
  let resolved := extracted.foldl
    (fun acc ref =>
      let cleanRef := jsTrim (stripLeadingDeterminer (jsToLower ref))
      match e.resolveReference cleanRef with
      | some componentId =>
          if componentId.isEmpty then
            match jsGet componentMap cleanRef with
            | some cid => if cid.isEmpty then acc else acc ++ [cid]
            | none => acc
          else acc ++ [componentId]
      | none =>
          match jsGet componentMap cleanRef with
          | some cid => if cid.isEmpty then acc else acc ++ [cid]
          | none => acc)
    []
  uniqueFirst resolved

/-- The `indexComponents` helper of `part_004` (the one the orchestrator
calls): type-name references first-writer-wins, then `first`/`last` over the
order-sorted component list. -/
def indexComponentsHelper (m : IntentMemoryEngine)
    (components : List UIComponent) (now : Nat) : IntentMemoryEngine :=
  let m := components.foldl
    (fun m comp =>
      let refKey := jsToLower comp.type
      match m.resolveReference refKey with
      | some cid =>
          if cid.isEmpty then m.setReference refKey comp.id now else m
      | none => m.setReference refKey comp.id now)
    m
  let rec insertByOrder (x : UIComponent) :
      List UIComponent → List UIComponent
    | [] => [x]
    | y :: ys =>
        if (x.order.getD 0) ≤ (y.order.getD 0) then x :: y :: ys
        else y :: insertByOrder x ys
  let sortedComps := components.foldr insertByOrder []
  match sortedComps with
  | [] => m
  | firstComp :: rest =>
      let m := m.setReference "first" firstComp.id now
      match (firstComp :: rest).getLast? with
      | some lastComp => m.setReference "last" lastComp.id now
      | none => m

/-- The orchestrator's `resolveReferences`: build a first-per-type map from
the tree, resolve the input's fragments, and annotate the input with the
first resolved component. -/
def resolveReferences (w : World) (userInput : String) : String :=
  let state := w.ui.state
  let componentMap := state.foldl
    (fun acc p =>
      match jsGet acc p.2.type with
      | some _ => acc
      | none => jsSet acc p.2.type p.1)
    ([] : List (String × String))
  let resolvedIds := w.memory.resolveReferencesInText userInput componentMap
  match resolvedIds with
  | firstId :: _ =>
      match jsGet state firstId with
      | some referencedComp =>
          userInput ++ " [referencing: " ++ referencedComp.type
            ++ " id:" ++ referencedComp.id ++ "]"
      | none => userInput
  | [] => userInput

/-- `destructivePatterns` from `simulateAIResponse`. -/
def destructivePatterns : List String :=
  [ "delete all", "delete my data", "delete everything"
  , "erase all", "erase everything", "erase my data"
  , "remove all data", "remove my data", "remove everything"
  , "destroy all", "destroy my data"
  , "wipe all", "wipe everything", "wipe my data"
  , "clear all data", "clear my data"
  , "reset everything", "reset all data"
  , "forget everything", "forget my data" ]

/-- The salary-comparison routing guard of `simulateAIResponse`. -/
def salaryComparisonGuard (lowerInput : String) : Bool :=
  jsIncludes lowerInput "salary"
    && (jsIncludes lowerInput "comparison"
      || jsIncludes lowerInput "compare"
      || (jsIncludes lowerInput "last month" && jsIncludes lowerInput "current month"))

/-- The export routing guard. -/
def exportGuard (lowerInput : String) : Bool :=
  jsIncludes lowerInput "export"
    && (jsIncludes lowerInput "report"
      || jsIncludes lowerInput "pdf"
      || jsIncludes lowerInput "salary")

/-- The expenses routing guard. -/
def expenseGuard (lowerInput : String) : Bool :=
  jsIncludes lowerInput "expense" || jsIncludes lowerInput "expenses"

/-- The clear/reset routing guard. -/
def clearGuard (lowerInput : String) : Bool :=
  jsIncludes lowerInput "clear"
    || jsIncludes lowerInput "reset"
    || jsIncludes lowerInput "remove all"

/-- The destructive-vocabulary guard (`isDestructiveRequest`). -/
def isDestructiveRequest (lowerInput : String) : Bool :=
  destructivePatterns.any (fun pattern => jsIncludes lowerInput pattern)

/-- The confirm routing guard. -/
def confirmGuard (lowerInput : String) : Bool :=
  jsIncludes lowerInput "confirmed" || jsIncludes lowerInput "confirm clear"

/-- Salary-comparison cards + chart pair rendered by both the comparison
branch and the form-submitted branch of `simulateAIResponse`. -/
def salaryComparisonComponents (store : DataStore) : List UIComponent :=
  let salaryData := getSalaryComparisonData store
  let cardsData := getSalaryCardsData store
  [ { id := "salary-comparison-cards"
      type := "SummaryCards"
      visible := true
      props := [("cards", .list (cardsData.map (fun card =>
        .obj [ ("title", .str card.title)
             , ("value", card.value)
             , ("trend", .str card.trend) ])))]
      order := some 0 }
  , { id := "salary-comparison-chart"
      type := "ChartView"
      visible := true
      props :=
        [ ("title", .str "Salary Comparison")
        , ("data", .list [ .num (salaryData.lastMonth.getD 0)
                         , .num (salaryData.currentMonth.getD 0) ])
        , ("labels", .list [.str "Last Month", .str "Current Month"])
        , ("type", .str "bar") ]
      order := some 1 } ]

/-- The salary data-collection form of `simulateAIResponse`. -/
def salaryDataForm (store : DataStore) : UIComponent :=
  let hasLastMonth := store.existsKey "salary.lastMonth"
  let hasCurrentMonth := store.existsKey "salary.currentMonth"
  { id := "salary-data-form"
    type := "InputForm"
    visible := true
    props :=
      [ ("fields", .list
          [ .obj [ ("name", .str "lastMonthSalary")
                 , ("label", .str "Last Month Salary")
                 , ("type", .str "number")
                 , ("placeholder", .str "Enter your last month salary")
                 , ("required", .bool (!hasLastMonth)) ]
          , .obj [ ("name", .str "currentMonthSalary")
                 , ("label", .str "Current Month Salary")
                 , ("type", .str "number")
                 , ("placeholder", .str "Enter your current month salary")
                 , ("required", .bool (!hasCurrentMonth)) ] ])
      , ("submitLabel", .str "Compare Salary") ]
    order := some 0 }

/-- `simulateAIResponse(userInput, context)`: the rule-based decision policy.
Its `context` string parameter is never read (the simulation branches on
`userInput` and the shared stores only), so it is not passed here. -/
def simulateAIResponse (ui : UIStateEngine) (store : DataStore)
    (userInput : String) : OrchestratorResponse :=
  let lowerInput := jsToLower userInput
  if salaryComparisonGuard lowerInput then
    if needsSalaryData store then
      { render := [salaryDataForm store]
        remove := []
        update := []
        notes := "Collecting missing salary data for comparison" }
    else
      { render := salaryComparisonComponents store
        remove := ["empty-state", "salary-data-form"]
        update := []
        notes := "Displayed salary comparison with available data" }
  else if jsIncludes lowerInput "form submitted" && store.hasSalaryData then
    { render := salaryComparisonComponents store
      remove := ["salary-data-form"]
      update := []
      notes := "Processed salary data and displayed comparison" }
  else if exportGuard lowerInput then
    { render :=
        [ { id := "export-success"
            type := "InsightSummary"
            visible := true
            props := [("insights", .list
              [ .obj [ ("title", .str "Report Ready")
                     , ("description", .str "Salary comparison report has been prepared for export.")
                     , ("type", .str "success") ] ])]
            order := some 0 }
        , { id := "export-actions"
            type := "ExportActions"
            visible := true
            props := [("formats", .list
              [ .obj [("id", .str "pdf"), ("label", .str "PDF")]
              , .obj [("id", .str "csv"), ("label", .str "CSV")] ])]
            order := some 1 } ]
      remove := []
      update := []
      notes := "Export options displayed for salary comparison" }
  else if expenseGuard lowerInput then
    if !store.existsKey "expenses.total" then
      { render :=
          [ { id := "expense-data-form"
              type := "InputForm"
              visible := true
              props :=
                [ ("title", .str "Expense Information")
                , ("description", .str "Enter your expense details to see a breakdown")
                , ("fields", .list
                    [ .obj [ ("name", .str "totalExpenses")
                           , ("label", .str "Total Monthly Expenses")
                           , ("type", .str "number")
                           , ("placeholder", .str "e.g., 35000")
                           , ("required", .bool true) ]
                    , .obj [ ("name", .str "category")
                           , ("label", .str "Highest Category")
                           , ("type", .str "text")
                           , ("placeholder", .str "e.g., Rent, Food, Transport")
                           , ("required", .bool true) ] ])
                , ("submitLabel", .str "Analyze Expenses") ]
              order := some 0 } ]
        remove := []
        update := []
        notes := "Collecting expense data for breakdown" }
    else
      let totalExpenses := (store.get "expenses.total").getD (.num 0)
      let category := (store.get "expenses.category").getD (.str "Other")
      { render :=
          [ { id := "expense-summary"
              type := "SummaryCards"
              visible := true
              props := [("cards", .list
                [ .obj [ ("title", .str "Total Expenses")
                       , ("value", .str ("₹" ++ totalExpenses.jsString))
                       , ("trend", .str "neutral") ]
                , .obj [ ("title", .str "Top Category")
                       , ("value", .str category.jsString)
                       , ("trend", .str "neutral") ] ])]
              order := some 0 }
          , { id := "expense-breakdown"
              type := "InsightSummary"
              visible := true
              props := [("insights", .list
                [ .obj [ ("title", .str "Expense Breakdown")
                       , ("description", .str ("Your highest spending category is "
                           ++ category.jsString ++ " at ₹" ++ totalExpenses.jsString
                           ++ ". Consider tracking individual categories for better insights."))
                       , ("type", .str "info") ] ])]
              order := some 1 } ]
        remove := ["expense-data-form"]
        update := []
        notes := "Displayed expense breakdown" }
  else if clearGuard lowerInput then
    { render :=
        [ { id := "confirm-clear"
            type := "GuardrailModal"
            visible := true
            props :=
              [ ("title", .str "Clear All Components")
              , ("message", .str "This will remove all components from the screen. This action cannot be undone.")
              , ("confirmLabel", .str "Clear All")
              , ("cancelLabel", .str "Cancel") ]
            order := some 0 } ]
      remove := []
      update := []
      notes := "Awaiting confirmation for destructive action" }
  else if isDestructiveRequest lowerInput then
    let summary := store.getSourceSummary
    let hasUserData := summary.2.1 > 0
    let hasMockData := summary.1 > 0
    let message :=
      "This action will permanently delete your data. "
        ++ (if hasUserData then
              "You have " ++ toString summary.2.1
                ++ " user-provided data entries that will be lost. "
            else "")
        ++ (if hasMockData then "Mock data will remain available for new sessions. " else "")
        ++ "This action cannot be undone."
    { render :=
        [ { id := "confirm-data-deletion"
            type := "GuardrailModal"
            visible := true
            props :=
              [ ("title", .str "Delete All Data?")
              , ("message", .str message)
              , ("confirmLabel", .str "Delete Everything")
              , ("cancelLabel", .str "Keep My Data") ]
            order := some 0 } ]
      remove := []
      update := []
      notes := "Awaiting confirmation for data deletion" }
  else if confirmGuard lowerInput then
    { render :=
        [ { id := "empty-state"
            type := "EmptyState"
            visible := true
            props :=
              [ ("title", .str "Screen Cleared")
              , ("description", .str "All components have been removed.")
              , ("actionLabel", .str "Start Over") ]
            order := some 0 } ]
      remove := ui.state.map (fun p => p.1) ++ ["confirm-clear"]
      update := []
      notes := "Cleared all components after confirmation" }
  else
    { render :=
        [ { id := "empty-state"
            type := "EmptyState"
            visible := true
            props :=
              [ ("title", .str "What would you like to see?")
              , ("description", .str "Try asking for a salary comparison, chart, or summary.")
              , ("actionLabel", .str "Get Started") ]
            order := some 0 } ]
      remove := []
      update := []
      notes := "Displayed empty state for new user" }

/-- The `PredictiveActionBar` component `executeOrchestratorActions` appends
when predictions qualify. -/
def predictiveActionBar (predictions : List PredictiveAction) : UIComponent :=
  { id := "predictive-actions"
    type := "PredictiveActionBar"
    visible := true
    props := [("actions", .list (predictions.map (fun p =>
      .obj [ ("label", .str p.label)
           , ("input", .str p.input)
           , ("confidence", .num ((p.confidence : ℚ) / 100)) ])))]
    order := some 999 }

/-- `executeOrchestratorActions`: attach handlers, dispatch remove → update →
render, append the suggestion bar when warranted, record the intent, and
re-index components.  The `data: { response }` payload stored on the intent
is never read back and is dropped. -/
def executeOrchestratorActions (w : World) (response : OrchestratorResponse)
    (now : Nat) : OrchestratorAction × World :=
  let renderWithHandlers := response.render.map (fun comp => attachHandlers comp w.handlers)
  let ui := response.remove.foldl (fun ui id => (ui.dispatch (.remove id)).2) w.ui
  let ui := response.update.foldl (fun ui u => (ui.dispatch (.update u.1 u.2)).2) ui
  let ui := renderWithHandlers.foldl (fun ui comp => (ui.dispatch (.render comp)).2) ui
  let visibleComponents := (ui.state.map (fun p => p.2)).filter (fun c => c.visible)
  let predictions := getPredictiveActions (buildPredictionContext visibleComponents response.notes)
  let (renderFinal, ui) :=
    if shouldShowPredictions predictions then
      let bar := predictiveActionBar predictions
      (renderWithHandlers ++ [bar], (ui.dispatch (.render bar)).2)
    else (renderWithHandlers, ui)
  let affectedIds := response.remove
    ++ response.update.map (fun u => u.1)
    ++ renderFinal.map (fun c => c.id)
  let notes := if response.notes == "" then "User request processed" else response.notes
  let memory := (w.memory.recordIntent
    { input := notes, type := "ui_orchestration", componentIds := affectedIds } now).2
  let memory := indexComponentsHelper memory (ui.state.map (fun p => p.2)) now
  ({ render := renderFinal, remove := response.remove, update := response.update },
   { w with ui := ui, memory := memory })

/-- `processUserInput`: the main orchestrator entry point.  The `try/catch`
of the source is vacuous in this total embedding (nothing throws). -/
def processUserInput (w : World) (userInput : String) (now : Nat) :
    OrchestratorAction × World :=
  if (jsTrim userInput).length == 0 then
    ({ render := [], remove := [], update := [] }, w)
  else
    let resolvedInput := resolveReferences w userInput
    let response := simulateAIResponse w.ui w.store resolvedInput
    executeOrchestratorActions w response now

/-- `handleFormSubmission`: map field names to store keys, write the values,
re-process with a synthetic "Form submitted with …" input. -/
def handleFormSubmission (w : World) (formData : List (String × Value))
    (now : Nat) : OrchestratorAction × World :=
  let mappedData := formData.map (fun p => (mapFormFieldToDataKey p.1, p.2))
  let store := processFormData w.store mappedData now
  let formContext := String.intercalate ", "
    (mappedData.map (fun p => p.1 ++ ": " ++ p.2.jsString))
  processUserInput { w with store := store }
    ("Form submitted with " ++ formContext) now

/-- `confirmDestructiveAction`.  Faithful to the source's branch structure:
the first branch tests `actionId === "confirm-clear" || actionId.startsWith("confirm-")`,
so it also captures `confirm-data-deletion`. -/
def confirmDestructiveAction (w : World) (actionId : String) (now : Nat) :
    OrchestratorAction × World :=
  let (render, remove, store) :=
    if actionId == "confirm-clear" || actionId.startsWith "confirm-" then
      ([ ({ id := "empty-state"
            type := "EmptyState"
            visible := true
            props :=
              [ ("title", .str "Screen Cleared")
              , ("description", .str "All components have been removed.")
              , ("actionLabel", .str "Start Over") ]
            order := some 0 } : UIComponent) ],
       w.ui.state.map (fun p => p.1),
       w.store)
    else if actionId == "confirm-data-deletion" then
      ([ ({ id := "empty-state"
            type := "EmptyState"
            visible := true
            props :=
              [ ("title", .str "All Data Deleted")
              , ("description", .str "Your personal data has been removed. Mock data remains available for demonstration.")
              , ("actionLabel", .str "Start Over") ]
            order := some 0 } : UIComponent) ],
       w.ui.state.map (fun p => p.1),
       w.store.clear now)
    else ([], [], w.store)
  let render := render.map (fun comp => attachHandlers comp w.handlers)
  let ui := remove.foldl (fun ui id => (ui.dispatch (.remove id)).2) w.ui
  let ui := render.foldl (fun ui comp => (ui.dispatch (.render comp)).2) ui
  ({ render := render, remove := remove, update := [] },
   { w with ui := ui, store := store })

/-- `cancelDestructiveAction`. -/
def cancelDestructiveAction (w : World) (actionId : String) :
    OrchestratorAction × World :=
  let ui := (w.ui.dispatch (.remove actionId)).2
  ({ render := [], remove := [actionId], update := [] }, { w with ui := ui })

/-! ## Helper lemmas -/

theorem jsGet_jsSet_self (m : List (String × α)) (k : String) (v : α) :
    jsGet (jsSet m k v) k = some v := by
  induction m with
  | nil => simp [jsSet, jsGet]
  | cons p t ih =>
      obtain ⟨k', v'⟩ := p
      by_cases h : k' = k
      · subst h
        simp [jsSet, jsGet]
      · simp only [jsSet, beq_iff_eq, if_neg h]
        simpa [jsGet, h] using ih

theorem jsGet_append (m₁ m₂ : List (String × α)) (k : String) :
    jsGet (m₁ ++ m₂) k = (jsGet m₁ k).orElse (fun _ => jsGet m₂ k) := by
  unfold jsGet
  rw [List.find?_append]
  cases m₁.find? (fun p => p.1 == k) <;> simp [Option.orElse]

theorem lookupProp_self_append (ps : Props) (k : String) :
    lookupProp (ps ++ ps) k = lookupProp ps k := by
  unfold lookupProp
  rw [jsGet_append]
  cases h : jsGet ps k <;> simp [Option.orElse]

/-! ## Claims about the UI state engine -/

/-- C5: every `dispatch` on the UI state engine increases the version counter
by exactly one — a batch action is a single dispatch, however many sub-edits
it contains — so the version is strictly monotonically increasing across
dispatches. -/
theorem dispatch_increments_version_by_one (e : UIStateEngine) (a : UIAction) :
    ((e.dispatch a).2).version = e.version + 1 := rfl

/-- The empty diff produced by a no-op edit on state `s`. -/
def noopResult (s : UIState) : UIStateResult :=
  { state := s, added := [], removed := [], updated := [], visibilityChanged := [] }

/-- C8: `update`/`remove`/`show`/`hide` targeting an id absent from the tree
leave the tree unchanged and report empty diff lists (silently ignored);
likewise `show` of an already-visible and `hide` of an already-hidden
component are no-ops reported in no diff list. -/
theorem noop_edits_silently_ignored (s : UIState) (n : ℚ) (id : String) :
    (jsGet s id = none →
      (∀ ps, UIStateEngine.reduce s n (.update id ps) = (noopResult s, n))
      ∧ UIStateEngine.reduce s n (.remove id) = (noopResult s, n)
      ∧ UIStateEngine.reduce s n (.show id) = (noopResult s, n)
      ∧ UIStateEngine.reduce s n (.hide id) = (noopResult s, n))
    ∧ (∀ c, jsGet s id = some c → c.visible = true →
        UIStateEngine.reduce s n (.show id) = (noopResult s, n))
    ∧ (∀ c, jsGet s id = some c → c.visible = false →
        UIStateEngine.reduce s n (.hide id) = (noopResult s, n)) := by
  refine ⟨fun habs => ?_, fun c hc hvis => ?_, fun c hc hvis => ?_⟩
  · refine ⟨fun ps => ?_, ?_, ?_, ?_⟩ <;>
      simp [UIStateEngine.reduce, habs, noopResult]
  · simp [UIStateEngine.reduce, hc, hvis, noopResult]
  · simp [UIStateEngine.reduce, hc, hvis, noopResult]

/-- Witness for C8 at concrete states: an unknown id is ignored on the empty
tree, and `show`/`hide` are no-ops on a visible/hidden singleton. -/
theorem noop_edits_silently_ignored_witness :
    UIStateEngine.reduce [] 0 (.update "ghost" [("x", .num 1)]) = (noopResult [], 0)
    ∧ UIStateEngine.reduce
        [("a", { id := "a", type := "T", props := [], visible := true, order := none })] 0
        (.show "a")
      = (noopResult
          [("a", { id := "a", type := "T", props := [], visible := true, order := none })], 0)
    ∧ UIStateEngine.reduce
        [("b", { id := "b", type := "T", props := [], visible := false, order := none })] 0
        (.hide "b")
      = (noopResult
          [("b", { id := "b", type := "T", props := [], visible := false, order := none })], 0) :=
  ⟨((noop_edits_silently_ignored [] 0 "ghost").1 rfl).1 [("x", .num 1)],
   (noop_edits_silently_ignored _ 0 "a").2.1
     { id := "a", type := "T", props := [], visible := true, order := none } rfl rfl,
   (noop_edits_silently_ignored _ 0 "b").2.2
     { id := "b", type := "T", props := [], visible := false, order := none } rfl rfl⟩

/-- The props of component `id` in tree `s` at key `k` (missing component or
missing key both read as absent). -/
def propsAt (s : UIState) (id k : String) : Option Value :=
  match jsGet s id with
  | some comp => lookupProp comp.props k
  | none => none

/-- C6: `render` is idempotent on structure — for a descriptor whose id is
already present, rendering it twice leaves exactly the same final props for
that id as rendering it once and then applying an `update` carrying the same
prop diff. -/
theorem render_idempotent_on_structure (s : UIState) (n : ℚ) (c : UIComponent)
    (h : (jsGet s c.id).isSome) (k : String) :
    propsAt (UIStateEngine.reduce
        (UIStateEngine.reduce s n (.render c)).1.state n (.render c)).1.state c.id k
      = propsAt (UIStateEngine.reduce
          (UIStateEngine.reduce s n (.render c)).1.state n (.update c.id c.props)).1.state c.id k := by
  obtain ⟨e, he⟩ := Option.isSome_iff_exists.mp h
  simp [UIStateEngine.reduce, he, propsAt, jsGet_jsSet_self, lookupProp_self_append]

/-- Concrete tree for the C6 witness: one component `a` already present. -/
def c6Tree : UIState :=
  [("a", { id := "a", type := "T", props := [("p", .num 1)], visible := true, order := none })]

/-- Concrete descriptor re-rendered in the C6 witness. -/
def c6Desc : UIComponent :=
  { id := "a", type := "T", props := [("p", .num 2), ("q", .str "x")],
    visible := true, order := none }

/-- Witness for C6 at a concrete tree: re-rendering descriptor `a` twice and
render-then-update agree on the final props. -/
theorem render_idempotent_on_structure_witness :
    (jsGet c6Tree c6Desc.id).isSome
    ∧ propsAt (UIStateEngine.reduce
        (UIStateEngine.reduce c6Tree 0 (.render c6Desc)).1.state 0
        (.render c6Desc)).1.state c6Desc.id "p"
      = propsAt (UIStateEngine.reduce
          (UIStateEngine.reduce c6Tree 0 (.render c6Desc)).1.state 0
          (.update c6Desc.id c6Desc.props)).1.state c6Desc.id "p" :=
  ⟨by decide, render_idempotent_on_structure c6Tree 0 c6Desc (by decide) "p"⟩

/-! ## Claims about the orchestrator's trivial-input path -/

/-- C10: an input that is empty or whitespace-only makes `processUserInput`
return an action with empty `render`/`remove`/`update` lists and leave the
whole module state (tree, version, intent memory, references, fact store)
untouched. -/
theorem whitespace_input_is_total_noop (w : World) (input : String) (now : Nat)
    (h : jsTrim input = "") :
    processUserInput w input now = ({ render := [], remove := [], update := [] }, w) := by
  simp [processUserInput, h]

/-- Witness for C10 on a whitespace input. -/
theorem whitespace_input_is_total_noop_witness :
    jsTrim "  " = ""
    ∧ processUserInput (World.init 0) "  " 5
        = ({ render := [], remove := [], update := [] }, World.init 0) :=
  ⟨by decide, whitespace_input_is_total_noop (World.init 0) "  " 5 (by decide)⟩


/-! ## Claims about reference memory -/

theorem jsGet_cons_self (k : String) (v : α) (t : List (String × α)) :
    jsGet ((k, v) :: t) k = some v := by
  simp [jsGet, List.find?_cons_of_pos]

theorem jsGet_cons_ne (k₀ k : String) (v₀ : α) (t : List (String × α))
    (h : k₀ ≠ k) : jsGet ((k₀, v₀) :: t) k = jsGet t k := by
  unfold jsGet
  rw [List.find?_cons_of_neg]
  simp [h]

theorem jsGet_jsSet_ne (m : List (String × α)) (k k' : String) (v : α)
    (h : k ≠ k') : jsGet (jsSet m k' v) k = jsGet m k := by
  induction m with
  | nil =>
      show jsGet [(k', v)] k = jsGet [] k
      rw [jsGet_cons_ne _ _ _ _ (Ne.symm h)]
  | cons p t ih =>
      obtain ⟨k₀, v₀⟩ := p
      by_cases h0 : k₀ = k'
      · subst h0
        simp only [jsSet, beq_self_eq_true, if_pos]
        rw [jsGet_cons_ne _ _ _ _ (Ne.symm h), jsGet_cons_ne _ _ _ _ (Ne.symm h)]
      · simp only [jsSet, beq_iff_eq, if_neg h0]
        by_cases h1 : k₀ = k
        · subst h1
          rw [jsGet_cons_self, jsGet_cons_self]
        · rw [jsGet_cons_ne _ _ _ _ h1, jsGet_cons_ne _ _ _ _ h1, ih]

theorem jsGet_filter_none (m : List (String × α)) (k : String)
    (p : String × α → Bool) (h : ∀ v, (k, v) ∈ m → p (k, v) = false) :
    jsGet (m.filter p) k = none := by
  induction m with
  | nil => simp [jsGet]
  | cons q t ih =>
      obtain ⟨k₀, v₀⟩ := q
      have ih' := ih (fun v hv => h v (List.mem_cons_of_mem _ hv))
      by_cases h0 : k₀ = k
      · subst h0
        have hp := h v₀ (List.mem_cons_self _ _)
        simp only [List.filter_cons, hp, if_neg Bool.false_ne_true]
        exact ih'
      · simp only [List.filter_cons]
        cases hp : p (k₀, v₀) with
        | false => exact ih'
        | true =>
            rw [if_pos rfl, jsGet_cons_ne _ _ _ _ h0]
            exact ih'

/-- The references of the post-`recordIntent` state at any key other than
`this` and `that` are exactly the post-`cleanup` references at that key
(`recordIntent` only ever rebinds `this` and `that`). -/
theorem recordIntent_references_other (e : IntentMemoryEngine)
    (args : IntentInput) (now : Nat) (k : String)
    (h1 : k ≠ "this") (h2 : k ≠ "that") :
    jsGet ((e.recordIntent args now).2).references k
      = jsGet (e.cleanup now).references k := by
  have hlow1 : k ≠ jsToLower "this" := h1
  have hlow2 : k ≠ jsToLower "that" := h2
  unfold IntentMemoryEngine.recordIntent
  dsimp only
  split
  all_goals split
  all_goals first
    | rfl
    | (simp only [IntentMemoryEngine.setReference]
       rw [jsGet_jsSet_ne _ _ _ _ hlow1]
       try rfl)
    | skip
  all_goals split
  all_goals first
    | rfl
    | (simp only [IntentMemoryEngine.setReference]
       first
         | rw [jsGet_jsSet_ne _ _ _ _ hlow2, jsGet_jsSet_ne _ _ _ _ hlow1]
         | rw [jsGet_jsSet_ne _ _ _ _ hlow2]
         | rw [jsGet_jsSet_ne _ _ _ _ hlow1])

/-- The engine used by the C3 counterexample: `maxAge = 10` and one
reference `chart → c1` recorded at time `T = 0`. -/
def c3Engine : IntentMemoryEngine :=
  (IntentMemoryEngine.init 50 10).setReference "chart" "c1" 0 (some 0)

/-- C3 counterexample: at `now = 100` the reference recorded at `T = 0` with
`maxAge = 10` is long expired (`now − T > maxAge`), yet `resolveReference`
still returns the stale component id, not `null` — resolution never consults
the clock; eviction happens only inside `recordIntent`'s `cleanup`. -/
theorem reference_expiry_counterexample :
    100 - 0 > c3Engine.maxAge
    ∧ c3Engine.resolveReference "chart" = some "c1" := by
  constructor
  · decide
  · decide

/-- C3 (amended): an expired reference becomes unresolvable once the next
`recordIntent` (which runs `cleanup`) executes at a time `now` with
`now − T > maxAge` — provided the key is not `this`/`that` (which
`recordIntent` rebinds) and no surviving intent's affected id contains the
key as a substring (the last-resort fuzzy fallback of `resolveReference`). -/
theorem reference_expired_after_cleanup (e : IntentMemoryEngine)
    (args : IntentInput) (now : Nat) (key : String)
    (hthis : jsToLower key ≠ "this") (hthat : jsToLower key ≠ "that")
    (hexp : ∀ p ∈ e.references, p.1 = jsToLower key
      → now - p.2.timestamp > e.maxAge)
    (hfuzzy : ∀ i ∈ ((e.recordIntent args now).2).intents,
      ∀ cid ∈ i.componentIds, jsIncludes (jsToLower cid) (jsToLower key) = false) :
    ((e.recordIntent args now).2).resolveReference key = none := by
  have hrefs : jsGet ((e.recordIntent args now).2).references (jsToLower key) = none := by
    rw [recordIntent_references_other e args now (jsToLower key) hthis hthat]
    unfold IntentMemoryEngine.cleanup
    dsimp only
    apply jsGet_filter_none
    intro ref href
    have := hexp (jsToLower key, ref) href rfl
    simp [this]
  unfold IntentMemoryEngine.resolveReference
  dsimp only
  rw [hrefs]
  have hfind : ((e.recordIntent args now).2).intents.find?
      (fun intent => intent.componentIds.any
        (fun id => jsIncludes (jsToLower id) (jsToLower key))) = none := by
    rw [List.find?_eq_none]
    intro i hi
    simp only [List.any_eq_true]
    rintro ⟨cid, hcid, hinc⟩
    rw [hfuzzy i hi cid hcid] at hinc
    exact Bool.false_ne_true hinc
  simp [hfind]

/-- Witness for the amended C3: the expired `chart` reference of `c3Engine`
stops resolving after a `recordIntent` at time 100. -/
theorem reference_expired_after_cleanup_witness :
    (jsToLower "chart" ≠ "this")
    ∧ (jsToLower "chart" ≠ "that")
    ∧ (∀ p ∈ c3Engine.references, p.1 = jsToLower "chart"
        → 100 - p.2.timestamp > c3Engine.maxAge)
    ∧ (∀ i ∈ ((c3Engine.recordIntent
          { input := "x", type := "t", componentIds := ["comp1"] } 100).2).intents,
        ∀ cid ∈ i.componentIds, jsIncludes (jsToLower cid) (jsToLower "chart") = false)
    ∧ ((c3Engine.recordIntent
          { input := "x", type := "t", componentIds := ["comp1"] } 100).2).resolveReference
        "chart" = none := by
  refine ⟨by decide, by decide, by decide, by decide, ?_⟩
  exact reference_expired_after_cleanup c3Engine _ 100 "chart"
    (by decide) (by decide) (by decide) (by decide)

/-- C4: recording three intents in one session (nondecreasing times within
the eviction window, log capacity at least 2) with non-empty affected lists
headed by `A`, `B`, `C` leaves `this` bound to `C` and `that` bound to `B`
(one-step rotation), not to `A`. -/
theorem this_that_rotation (maxI maxA : Nat) (hI : 2 ≤ maxI)
    (t1 t2 t3 : Nat) (h12 : t1 ≤ t2) (h23 : t2 ≤ t3) (hage : t3 - t1 < maxA)
    (in1 in2 in3 ty1 ty2 ty3 a b c : String) (as bs cs : List String)
    (d1 d2 d3 : Option (List (String × Value))) :
    ((((((IntentMemoryEngine.init maxI maxA).recordIntent
        { input := in1, type := ty1, componentIds := a :: as, data := d1 } t1).2).recordIntent
        { input := in2, type := ty2, componentIds := b :: bs, data := d2 } t2).2).recordIntent
        { input := in3, type := ty3, componentIds := c :: cs, data := d3 } t3).2.resolveReference "this"
        = some c
    ∧ ((((((IntentMemoryEngine.init maxI maxA).recordIntent
        { input := in1, type := ty1, componentIds := a :: as, data := d1 } t1).2).recordIntent
        { input := in2, type := ty2, componentIds := b :: bs, data := d2 } t2).2).recordIntent
        { input := in3, type := ty3, componentIds := c :: cs, data := d3 } t3).2.resolveReference "that"
        = some b := by
  have f1 : t2 - t1 < maxA := by omega
  have f1n : ¬ (t2 - t1 > maxA) := by omega
  have f2 : t3 - t1 < maxA := by omega
  have f2n : ¬ (t3 - t1 > maxA) := by omega
  have f3 : t3 - t2 < maxA := by omega
  have f3n : ¬ (t3 - t2 > maxA) := by omega
  have g1 : ¬ (1 > maxI) := by omega
  have g2 : ¬ (2 > maxI) := by omega
  have lthis : jsToLower "this" = "this" := by decide
  have lthat : jsToLower "that" = "that" := by decide
  constructor <;>
    simp [IntentMemoryEngine.recordIntent, IntentMemoryEngine.cleanup,
      IntentMemoryEngine.init, IntentMemoryEngine.setReference,
      IntentMemoryEngine.resolveReference, jsSet, jsGet,
      f1, f1n, f2, f2n, f3, f3n, g1, g2, lthis, lthat]

/-- The three-intent session of the C4 witness (default options, times
0 / 1 / 2, affected components `A`, `B`, `C`). -/
def c4Session : IntentMemoryEngine :=
  ((((IntentMemoryEngine.init 50 (60 * 60 * 1000)).recordIntent
      { input := "i1", type := "t", componentIds := ["A"] } 0).2.recordIntent
      { input := "i2", type := "t", componentIds := ["B"] } 1).2.recordIntent
      { input := "i3", type := "t", componentIds := ["C"] } 2).2

/-- Witness for C4 at a concrete session. -/
theorem this_that_rotation_witness :
    (2 ≤ 50 ∧ (0 : Nat) ≤ 1 ∧ (1 : Nat) ≤ 2 ∧ 2 - 0 < 60 * 60 * 1000)
    ∧ c4Session.resolveReference "this" = some "C"
    ∧ c4Session.resolveReference "that" = some "B" :=
  ⟨by decide,
   (this_that_rotation 50 (60 * 60 * 1000) (by decide) 0 1 2 (by decide) (by decide)
      (by decide) "i1" "i2" "i3" "t" "t" "t" "A" "B" "C" [] [] [] none none none).1,
   (this_that_rotation 50 (60 * 60 * 1000) (by decide) 0 1 2 (by decide) (by decide)
      (by decide) "i1" "i2" "i3" "t" "t" "t" "A" "B" "C" [] [] [] none none none).2⟩

/-! ## Claims about the data store -/

theorem jsGet_eq_none_of_keys_ne (m : List (String × α)) (k : String)
    (h : ∀ x ∈ m, x.1 ≠ k) : jsGet m k = none := by
  unfold jsGet
  have : m.find? (fun p => p.1 == k) = none := by
    rw [List.find?_eq_none]
    intro x hx
    simp [h x hx]
  rw [this]
  rfl

theorem mem_jsSet_cases (m : List (String × α)) (k : String) (v : α)
    (x : String × α) (h : x ∈ jsSet m k v) : x = (k, v) ∨ x ∈ m := by
  induction m with
  | nil => simpa [jsSet] using h
  | cons p t ih =>
      obtain ⟨k₀, v₀⟩ := p
      by_cases h0 : k₀ = k
      · subst h0
        simp only [jsSet, beq_self_eq_true, if_pos] at h
        rcases List.mem_cons.mp h with h | h
        · exact Or.inl h
        · exact Or.inr (List.mem_cons_of_mem _ h)
      · simp only [jsSet, beq_iff_eq, if_neg h0] at h
        rcases List.mem_cons.mp h with h | h
        · exact Or.inr (h ▸ List.mem_cons_self _ _)
        · rcases ih h with h | h
          · exact Or.inl h
          · exact Or.inr (List.mem_cons_of_mem _ h)

theorem jsGet_some_mem (m : List (String × α)) (k : String) (e : α)
    (h : jsGet m k = some e) : (k, e) ∈ m := by
  unfold jsGet at h
  cases hf : m.find? (fun p => p.1 == k) with
  | none => rw [hf] at h; simp at h
  | some p =>
      rw [hf] at h
      obtain ⟨k₀, v₀⟩ := p
      have hmem := List.mem_of_find?_eq_some hf
      have hkey := List.find?_some hf
      simp only [beq_iff_eq] at hkey
      simp at h
      subst hkey
      rw [← h]
      exact hmem

/-- Every entry the mock initializer produces carries a key outside the
never-auto-populate set. -/
theorem mem_initializeMockData_not_required (now : Nat) (x : String × DataEntry)
    (h : x ∈ DataStore.initializeMockData now) :
    USER_REQUIRED_FIELDS.contains x.1 = false := by
  unfold DataStore.initializeMockData at h
  obtain ⟨p, hp, hx⟩ := List.mem_map.mp h
  have hfilt := (List.mem_filter.mp hp).2
  have hfilt' : USER_REQUIRED_FIELDS.contains p.1 = false := by
    simpa using hfilt
  rw [← hx]
  exact hfilt'

/-- The mutating public operations of `DataStore` (its `import` debugging
hook excluded: the claims concern the data-flow surface the orchestrator
uses). -/
inductive StoreOp where
  | set (k : String) (v : Value) (now : Nat)
  | setMany (entries : List (String × Value)) (now : Nat)
  | delete (k : String)
  | resetToMock (k : String) (now : Nat)
  | clear (now : Nat)

/-- Apply one store operation. -/
def applyStoreOp (s : DataStore) : StoreOp → DataStore
  | .set k v now => s.set k v now
  | .setMany entries now => s.setMany entries now
  | .delete k => s.delete k
  | .resetToMock k now => (s.resetToMock k now).2
  | .clear now => s.clear now

/-- Apply a sequence of store operations. -/
def applyStoreOps (s : DataStore) (ops : List StoreOp) : DataStore :=
  ops.foldl applyStoreOp s

/-- Invariant: every binding of a never-auto-populate key is user-sourced. -/
def UserRequiredInv (s : DataStore) : Prop :=
  ∀ k, USER_REQUIRED_FIELDS.contains k = true →
    ∀ e : DataEntry, (k, e) ∈ s.data → e.source = .user

theorem userRequiredInv_init (now : Nat) : UserRequiredInv (DataStore.init now) := by
  intro k hk e he
  have := mem_initializeMockData_not_required now (k, e) he
  simp only at this
  rw [hk] at this
  cases this

theorem userRequiredInv_set (s : DataStore) (k' : String) (v : Value) (now : Nat)
    (hs : UserRequiredInv s) : UserRequiredInv (s.set k' v now) := by
  intro k hk e he
  rcases mem_jsSet_cases _ _ _ _ he with h | h
  · cases h; rfl
  · exact hs k hk e h

theorem userRequiredInv_setMany (s : DataStore) (entries : List (String × Value))
    (now : Nat) (hs : UserRequiredInv s) : UserRequiredInv (s.setMany entries now) := by
  induction entries generalizing s with
  | nil => exact hs
  | cons p t ih => exact ih _ (userRequiredInv_set s p.1 p.2 now hs)

theorem userRequiredInv_preserved (s : DataStore) (op : StoreOp)
    (hs : UserRequiredInv s) : UserRequiredInv (applyStoreOp s op) := by
  cases op with
  | set k' v now => exact userRequiredInv_set s k' v now hs
  | setMany entries now => exact userRequiredInv_setMany s entries now hs
  | delete k' =>
      intro k hk e he
      simp only [applyStoreOp] at he
      exact hs k hk e (List.mem_of_mem_filter he)
  | resetToMock k' now =>
      intro k hk e he
      simp only [applyStoreOp] at he
      unfold DataStore.resetToMock at he
      rcases hmock : jsGet MOCK_DATA k' with _ | v
      · rw [hmock] at he
        exact hs k hk e he
      · rw [hmock] at he
        by_cases hreq : USER_REQUIRED_FIELDS.contains k' = true
        · simp only [hreq, if_pos] at he
          exact hs k hk e he
        · simp only [Bool.not_eq_true] at hreq
          simp only [hreq, Bool.false_eq_true, if_neg, not_false_iff] at he
          rcases mem_jsSet_cases _ _ _ _ he with h | h
          · exfalso
            have : k = k' := congrArg Prod.fst h
            rw [this] at hk
            rw [hk] at hreq
            cases hreq
          · exact hs k hk e h
  | clear now =>
      intro k hk e he
      simp only [applyStoreOp] at he
      exact userRequiredInv_init now k hk e he

theorem userRequiredInv_applyOps (s : DataStore) (ops : List StoreOp)
    (hs : UserRequiredInv s) : UserRequiredInv (applyStoreOps s ops) := by
  induction ops generalizing s with
  | nil => exact hs
  | cons op t ih => exact ih _ (userRequiredInv_preserved s op hs)

theorem jsSet_self_mem (m : List (String × α)) (k : String) (v : α) :
    (k, v) ∈ jsSet m k v := by
  induction m with
  | nil => simp [jsSet]
  | cons p t ih =>
      obtain ⟨k₀, v₀⟩ := p
      by_cases h0 : k₀ = k
      · subst h0; simp [jsSet]
      · simp only [jsSet, beq_iff_eq, if_neg h0]
        exact List.mem_cons_of_mem _ ih

/-- A never-auto-populate key reads as absent from a freshly initialized
store: it is outside the computed-field table and the mock initializer
skipped it. -/
theorem get_init_user_required (now : Nat) (k : String)
    (hk : k ∈ USER_REQUIRED_FIELDS) : (DataStore.init now).get k = none := by
  have hc : USER_REQUIRED_FIELDS.contains k = true := by simpa using hk
  have hraw : DataStore.getRaw (DataStore.init now) k = none := by
    unfold DataStore.getRaw DataStore.init
    have hnone : jsGet (DataStore.initializeMockData now) k = none := by
      apply jsGet_eq_none_of_keys_ne
      intro x hx hcontra
      have hfalse := mem_initializeMockData_not_required now x hx
      rw [hcontra, hc] at hfalse
      cases hfalse
    simp [hnone]
  fin_cases hk <;> simpa [DataStore.get] using hraw

/-- C7: never-auto-populate keys (`salary.lastMonth`, `user.email`, …) are
never mock-populated: absent (reading `null`) after construction and after
every `clear()`, `resetToMock` refuses them leaving the store unchanged, and
under any sequence of public mutations every binding such a key ever has is
user-sourced. -/
theorem user_required_fields_never_mocked :
    (∀ (now : Nat) (k : String), k ∈ USER_REQUIRED_FIELDS →
      (DataStore.init now).get k = none)
    ∧ (∀ (s : DataStore) (now : Nat) (k : String), k ∈ USER_REQUIRED_FIELDS →
        (s.clear now).get k = none)
    ∧ (∀ (s : DataStore) (now : Nat) (k : String), k ∈ USER_REQUIRED_FIELDS →
        s.resetToMock k now = (false, s))
    ∧ (∀ (ops : List StoreOp) (now : Nat) (k : String), k ∈ USER_REQUIRED_FIELDS →
        ∀ e : DataEntry, (k, e) ∈ (applyStoreOps (DataStore.init now) ops).data →
          e.source = .user) := by
  refine ⟨fun now k hk => get_init_user_required now k hk,
    fun s now k hk => get_init_user_required now k hk,
    fun s now k hk => ?_,
    fun ops now k hk e he =>
      userRequiredInv_applyOps _ ops (userRequiredInv_init now) k (by simpa using hk) e he⟩
  fin_cases hk <;> simp [DataStore.resetToMock, MOCK_DATA, jsGet, USER_REQUIRED_FIELDS]

/-- Witness for C7: `user.email` is absent initially and after `clear`,
`resetToMock` refuses it, and after a user `set` its binding is
user-sourced. -/
theorem user_required_fields_never_mocked_witness :
    ("user.email" ∈ USER_REQUIRED_FIELDS)
    ∧ (DataStore.init 0).get "user.email" = none
    ∧ ((DataStore.init 0).clear 1).get "user.email" = none
    ∧ (DataStore.init 0).resetToMock "user.email" 1 = (false, DataStore.init 0)
    ∧ (("user.email",
        ({ value := .str "a@b.c", source := .user, timestamp := 3 } : DataEntry))
          ∈ (applyStoreOps (DataStore.init 0)
              [.set "user.email" (.str "a@b.c") 3]).data
        → ({ value := .str "a@b.c", source := .user, timestamp := 3 } : DataEntry).source
            = .user)
    ∧ ("user.email",
        ({ value := .str "a@b.c", source := .user, timestamp := 3 } : DataEntry))
          ∈ (applyStoreOps (DataStore.init 0)
              [.set "user.email" (.str "a@b.c") 3]).data := by
  have hk : "user.email" ∈ USER_REQUIRED_FIELDS := by decide
  refine ⟨hk,
    user_required_fields_never_mocked.1 0 "user.email" hk,
    user_required_fields_never_mocked.2.1 (DataStore.init 0) 1 "user.email" hk,
    user_required_fields_never_mocked.2.2.1 (DataStore.init 0) 1 "user.email" hk,
    fun hmem => user_required_fields_never_mocked.2.2.2
      [.set "user.email" (.str "a@b.c") 3] 0 "user.email" hk _ hmem,
    ?_⟩
  exact jsSet_self_mem _ _ _

/-! ## Claim about suggestion truncation -/

/-- Spec-side selection for C9, following the spec's words rather than the
code: among indexed suggestions, the winner is the one with maximal
confidence, the earliest emission (registration) position breaking ties. -/
def pickTop : List (Nat × PredictiveAction) → Option (Nat × PredictiveAction)
  | [] => none
  | x :: xs =>
      match pickTop xs with
      | none => some x
      | some y => if y.2.confidence > x.2.confidence then some y else some x

/-- Remove the entry carrying a given emission index. -/
def removeIdx (i : Nat) : List (Nat × PredictiveAction) → List (Nat × PredictiveAction)
  | [] => []
  | x :: xs => if x.1 = i then xs else x :: removeIdx i xs

/-- Spec-side top-`n` by repeated selection of the best remaining
suggestion. -/
def specTopN : Nat → List (Nat × PredictiveAction) → List PredictiveAction
  | 0, _ => []
  | n + 1, l =>
      match pickTop l with
      | none => []
      | some b => b.2 :: specTopN n (removeIdx b.1 l)

/-- Spec-side "top 3 by descending confidence, ties broken by registration
order" over a list in emission order. -/
def specTop3 (l : List PredictiveAction) : List PredictiveAction :=
  specTopN 3 l.enum

/-- C9: whenever the rules collectively emit more qualifying suggestions
(confidence at or above the 0.5 threshold) than the maximum of 3,
`getPredictiveActions` returns exactly the top-3 by descending confidence,
equal confidences resolved in favor of the earlier-registered rule. -/
theorem suggestion_truncation_top3 (ctx : PredictionContext)
    (h : MAX_SUGGESTIONS <
      ((allRuleSuggestions ctx).filter (fun s => s.confidence ≥ MIN_CONFIDENCE)).length) :
    getPredictiveActions ctx
      = specTop3 ((allRuleSuggestions ctx).filter
          (fun s => s.confidence ≥ MIN_CONFIDENCE)) := by
  revert h
  cases h1 : (ctx.currentComponents.any fun c => c.id == "empty-state") <;>
  cases h2 : ((ctx.currentComponents.any fun c => c.id == "salary-comparison-cards")
      && (ctx.currentComponents.any fun c => c.id == "salary-comparison-chart")) <;>
  cases h3 : (jsIncludes ctx.lastAction "salary-data-form"
      && jsIncludes ctx.lastAction "salary-comparison-cards") <;>
  cases h4 : (ctx.currentComponents.any fun c =>
      match lookupProp c.props "cards" with
      | some (.list cards) => cards.any cardTitleHasExpense
      | _ => false) <;>
  cases h5 : ((ctx.currentComponents.any fun c => c.type == "ChartView")
      && (ctx.currentComponents.length == 1)) <;>
    simp only [getPredictiveActions, allRuleSuggestions, emptyStateRule,
      salaryComparisonRule, afterFormRule, expensesRule, chartRule,
      h1, h2, h3, h4, h5, Bool.false_and, Bool.and_self, if_true, if_false,
      Bool.true_and, cond_true, cond_false, Option.getD_some, Option.getD_none] <;>
    decide

/-- Concrete context for the C9 witness: empty-state plus the salary pair on
screen and a last action mentioning both the removed form and the added
cards, so four qualifying suggestions are emitted. -/
def c9Ctx : PredictionContext :=
  { currentComponents :=
      [ { id := "empty-state", type := "EmptyState", props := [], visible := true, order := some 0 }
      , { id := "salary-comparison-cards", type := "SummaryCards", props := [], visible := true, order := some 1 }
      , { id := "salary-comparison-chart", type := "ChartView", props := [], visible := true, order := some 2 } ]
    lastAction := "salary-data-form salary-comparison-cards"
    hasSalaryData := true
    hasExpenseData := false
    hasChartData := true }

/-- Witness for C9: four suggestions qualify and the kept three are the
spec-side top-3. -/
theorem suggestion_truncation_top3_witness :
    MAX_SUGGESTIONS <
      ((allRuleSuggestions c9Ctx).filter (fun s => s.confidence ≥ MIN_CONFIDENCE)).length
    ∧ getPredictiveActions c9Ctx
        = specTop3 ((allRuleSuggestions c9Ctx).filter
            (fun s => s.confidence ≥ MIN_CONFIDENCE)) :=
  ⟨by decide, suggestion_truncation_top3 c9Ctx (by decide)⟩

/-! ## Claims about the end-to-end salary flow -/

/-- Step 1 of the C2 scenario: "show salary comparison" on a fresh module
state with no stored salary facts. -/
def c2Step1 : OrchestratorAction × World :=
  processUserInput (World.init 0) "show salary comparison" 1

/-- Step 2 of the C2 scenario: submitting the rendered form with
`{lastMonthSalary: 5000, currentMonthSalary: 5500}`. -/
def c2Step2 : OrchestratorAction × World :=
  handleFormSubmission c2Step1.2
    [("lastMonthSalary", .num 5000), ("currentMonthSalary", .num 5500)] 2

/-- C2 counterexample: the re-processing action does remove the form, but its
render list has three descriptors, not exactly two — the suggestion engine
appends its synthetic `PredictiveActionBar` to the executed render list. -/
theorem salary_flow_counterexample :
    c2Step2.1.remove = ["salary-data-form"]
    ∧ c2Step2.1.render.length = 3 := by
  constructor
  · decide
  · decide

/-- C2 (amended): with no stored salary facts, "show salary comparison"
yields an action rendering exactly one data-collection form and removing
nothing; submitting `{lastMonthSalary: 5000, currentMonthSalary: 5500}` and
re-processing yields an action that removes the form and renders the two
policy-emitted descriptors — one summary-cards and one chart, the chart's
data points equal to [5000, 5500] — plus the synthetic suggestion bar the
engine appends. -/
theorem salary_flow_amended :
    (World.init 0).store.hasSalaryData = false
    ∧ c2Step1.1.render.map (fun c => c.type) = ["InputForm"]
    ∧ c2Step1.1.remove = []
    ∧ c2Step1.1.update = []
    ∧ c2Step2.1.remove = ["salary-data-form"]
    ∧ c2Step2.1.update = []
    ∧ c2Step2.1.render.map (fun c => c.type)
        = ["SummaryCards", "ChartView", "PredictiveActionBar"]
    ∧ c2Step2.1.render.map (fun c => lookupProp c.props "data")
        = [none, some (.list [.num 5000, .num 5500]), none] := by
  refine ⟨by decide, by decide, by decide, rfl, by decide, rfl, by decide, ?_⟩
  rfl

/-! ## Claims about destructive-input routing -/

theorem listInfixOf_iff_isInfix [DecidableEq α] (pat l : List α) :
    listInfixOf pat l = true ↔ pat <:+: l := by
  induction l with
  | nil =>
      cases pat <;> simp [listInfixOf]
  | cons c cs ih =>
      simp only [listInfixOf, Bool.or_eq_true, List.isPrefixOf_iff_prefix, ih,
        List.infix_cons_iff]

theorem jsIncludes_iff_isInfix (s pat : String) :
    jsIncludes s pat = true ↔ pat.data <:+: s.data := by
  unfold jsIncludes
  exact listInfixOf_iff_isInfix _ _

theorem jsIncludes_append_left (s t pat : String) (h : jsIncludes s pat = true) :
    jsIncludes (s ++ t) pat = true := by
  rw [jsIncludes_iff_isInfix] at h ⊢
  rw [String.data_append]
  exact h.trans ((s.data.prefix_append t.data).isInfix)

theorem jsIncludes_of_pattern_infix (s pat₁ pat₂ : String)
    (hsub : pat₁.data <:+: pat₂.data) (h : jsIncludes s pat₂ = true) :
    jsIncludes s pat₁ = true := by
  rw [jsIncludes_iff_isInfix] at h ⊢
  exact hsub.trans h

theorem jsToLower_append (s t : String) :
    jsToLower (s ++ t) = jsToLower s ++ jsToLower t := by
  unfold jsToLower
  rw [String.data_append s t, List.map_append]
  rfl

/-- The orchestrator's reference annotation only ever appends to the input:
`resolveReferences` returns the input itself or the input followed by a
bracketed annotation. -/
theorem resolveReferences_extends (w : World) (input : String) :
    ∃ t, resolveReferences w input = input ++ t := by
  unfold resolveReferences
  dsimp only
  split
  · split
    · next comp _ =>
        exact ⟨" [referencing: " ++ comp.type ++ " id:" ++ comp.id ++ "]",
          by simp [String.append_assoc]⟩
    · exact ⟨"", (String.append_empty input).symm⟩
  · exact ⟨"", (String.append_empty input).symm⟩

/-- A lowercased string containing "delete all my data" triggers the
destructive-vocabulary guard (via its "delete all" pattern). -/
theorem isDestructiveRequest_of_delete_all_my_data (lowerInput : String)
    (h : jsIncludes lowerInput "delete all my data" = true) :
    isDestructiveRequest lowerInput = true := by
  unfold isDestructiveRequest
  rw [List.any_eq_true]
  refine ⟨"delete all", by decide, ?_⟩
  exact jsIncludes_of_pattern_infix _ _ _ (by decide) h

/-- `attachHandlers` never changes a component's type. -/
theorem attachHandlers_type (c : UIComponent) (h : HandlerRegistry) :
    (attachHandlers c h).type = c.type := rfl

/-- Shape of `executeOrchestratorActions`: the returned action's `update` is
the response's, the store is untouched, and the render list is the
handler-attached response renders with at most the suggestion bar
appended. -/
theorem executeOrchestratorActions_shape (w : World)
    (resp : OrchestratorResponse) (now : Nat) :
    (executeOrchestratorActions w resp now).1.update = resp.update
    ∧ (executeOrchestratorActions w resp now).2.store = w.store
    ∧ ((executeOrchestratorActions w resp now).1.render
          = resp.render.map (fun c => attachHandlers c w.handlers)
      ∨ ∃ preds, (executeOrchestratorActions w resp now).1.render
          = resp.render.map (fun c => attachHandlers c w.handlers)
            ++ [predictiveActionBar preds]) := by
  unfold executeOrchestratorActions
  dsimp only
  split
  · exact ⟨rfl, rfl, Or.inr ⟨_, rfl⟩⟩
  · exact ⟨rfl, rfl, Or.inl rfl⟩

/-- C1 (amended): an input containing "delete all my data" (lowercased)
routes to the guardrail — exactly one `GuardrailModal` descriptor is
rendered, the `update` list is empty, and the fact store is untouched —
provided the input is not all whitespace and the annotated input matches
none of the earlier routing branches (salary comparison, form submitted,
export, expenses, clear/reset), which take precedence in
`simulateAIResponse`. -/
theorem destructive_input_guardrail (w : World) (input : String) (now : Nat)
    (hne : ((jsTrim input).length == 0) = false)
    (hdel : jsIncludes (jsToLower input) "delete all my data" = true)
    (hsal : salaryComparisonGuard (jsToLower (resolveReferences w input)) = false)
    (hform : jsIncludes (jsToLower (resolveReferences w input)) "form submitted" = false)
    (hexp : exportGuard (jsToLower (resolveReferences w input)) = false)
    (hexpense : expenseGuard (jsToLower (resolveReferences w input)) = false)
    (hclear : clearGuard (jsToLower (resolveReferences w input)) = false) :
    ((processUserInput w input now).1.render.filter
        (fun c => c.type == "GuardrailModal")).length = 1
    ∧ (processUserInput w input now).1.update = []
    ∧ (processUserInput w input now).2.store = w.store := by
  have hdelr : jsIncludes (jsToLower (resolveReferences w input))
      "delete all my data" = true := by
    obtain ⟨t, ht⟩ := resolveReferences_extends w input
    rw [ht, jsToLower_append]
    exact jsIncludes_append_left _ _ _ hdel
  have hdestr : isDestructiveRequest (jsToLower (resolveReferences w input)) = true :=
    isDestructiveRequest_of_delete_all_my_data _ hdelr
  have hresp : simulateAIResponse w.ui w.store (resolveReferences w input)
      = { render :=
            [ { id := "confirm-data-deletion"
                type := "GuardrailModal"
                visible := true
                props :=
                  [ ("title", .str "Delete All Data?")
                  , ("message", .str
                      ("This action will permanently delete your data. "
                        ++ (if w.store.getSourceSummary.2.1 > 0 then
                              "You have " ++ toString w.store.getSourceSummary.2.1
                                ++ " user-provided data entries that will be lost. "
                            else "")
                        ++ (if w.store.getSourceSummary.1 > 0 then
                              "Mock data will remain available for new sessions. "
                            else "")
                        ++ "This action cannot be undone."))
                  , ("confirmLabel", .str "Delete Everything")
                  , ("cancelLabel", .str "Keep My Data") ]
                order := some 0 } ]
          remove := []
          update := []
          notes := "Awaiting confirmation for data deletion" } := by
    unfold simulateAIResponse
    simp [hsal, hform, hexp, hexpense, hclear, hdestr]
  have hproc : processUserInput w input now
      = executeOrchestratorActions w
          (simulateAIResponse w.ui w.store (resolveReferences w input)) now := by
    unfold processUserInput
    rw [hne]
    simp
  rw [hproc, hresp]
  obtain ⟨hupd, hstore, hrender⟩ :=
    executeOrchestratorActions_shape w _ now
  refine ⟨?_, hupd, hstore⟩
  rcases hrender with hrender | ⟨preds, hrender⟩ <;>
    rw [hrender] <;>
    simp [attachHandlers, predictiveActionBar]

/-- C1 counterexample: "export report delete all my data" contains the
destructive phrase, yet the earlier export routing branch wins — the
produced action renders no `GuardrailModal` at all (an InsightSummary and an
ExportActions instead). -/
theorem destructive_guardrail_counterexample :
    jsIncludes (jsToLower "export report delete all my data") "delete all my data" = true
    ∧ ((processUserInput (World.init 0) "export report delete all my data" 1).1.render.filter
        (fun c => c.type == "GuardrailModal")).length = 0
    ∧ (processUserInput (World.init 0) "export report delete all my data" 1).1.render.map
        (fun c => c.type) = ["InsightSummary", "ExportActions"] := by
  refine ⟨by decide, by decide, by decide⟩

/-- Witness for the amended C1 on the plain input "delete all my data". -/
theorem destructive_input_guardrail_witness :
    (((jsTrim "delete all my data").length == 0) = false)
    ∧ jsIncludes (jsToLower "delete all my data") "delete all my data" = true
    ∧ salaryComparisonGuard
        (jsToLower (resolveReferences (World.init 0) "delete all my data")) = false
    ∧ jsIncludes (jsToLower (resolveReferences (World.init 0) "delete all my data"))
        "form submitted" = false
    ∧ exportGuard (jsToLower (resolveReferences (World.init 0) "delete all my data")) = false
    ∧ expenseGuard (jsToLower (resolveReferences (World.init 0) "delete all my data")) = false
    ∧ clearGuard (jsToLower (resolveReferences (World.init 0) "delete all my data")) = false
    ∧ ((processUserInput (World.init 0) "delete all my data" 7).1.render.filter
        (fun c => c.type == "GuardrailModal")).length = 1
    ∧ (processUserInput (World.init 0) "delete all my data" 7).1.update = []
    ∧ (processUserInput (World.init 0) "delete all my data" 7).2.store
        = (World.init 0).store := by
  refine ⟨by decide, by decide, by decide, by decide, by decide, by decide, by decide,
    ?_, ?_, ?_⟩
  · exact (destructive_input_guardrail (World.init 0) "delete all my data" 7
      (by decide) (by decide) (by decide) (by decide) (by decide) (by decide) (by decide)).1
  · exact (destructive_input_guardrail (World.init 0) "delete all my data" 7
      (by decide) (by decide) (by decide) (by decide) (by decide) (by decide) (by decide)).2.1
  · exact (destructive_input_guardrail (World.init 0) "delete all my data" 7
      (by decide) (by decide) (by decide) (by decide) (by decide) (by decide) (by decide)).2.2
